import Mathlib

/-!
Verification development for the Stella input-mapping core: a shallow
embedding, in Lean 4, of the key-mapping equality and hash
(src/common/KeyMap.hxx), the controller auto-detection cascade
(src/emucore/ControllerDetector.cxx), the joystick lookup guards
(src/common/PJoystickHandler.hxx) and the event-dispatch and combo-table
logic (src/emucore/EventHandler.cxx), together with theorems settling the
specification claims about them.

Machine integers are modelled as Nat or Int with explicit truncation
where overflow matters; fallible or crashing code paths return Option.
-/

set_option maxHeartbeats 1000000
set_option maxRecDepth 4096

namespace KeyMap

/-- Modelled from the spec: the StellaMod modifier-mask constants come from
StellaKeys.hxx, which is not part of the excerpt.  Per spec section 3 and
section 9, each of the four modifier categories (Shift, Ctrl, Alt, GUI) is
a mask covering the bits of its left and right key variants (the SDL keymod
layout, consistent with testing all 16 presence combinations per modifier
described in the spec).  Left Shift bit. -/
def KBDM_LSHIFT : Nat := 0x0001

/-- Modelled from the spec: right Shift bit of the StellaMod mask. -/
def KBDM_RSHIFT : Nat := 0x0002

/-- Modelled from the spec: left Ctrl bit of the StellaMod mask. -/
def KBDM_LCTRL : Nat := 0x0040

/-- Modelled from the spec: right Ctrl bit of the StellaMod mask. -/
def KBDM_RCTRL : Nat := 0x0080

/-- Modelled from the spec: left Alt bit of the StellaMod mask. -/
def KBDM_LALT : Nat := 0x0100

/-- Modelled from the spec: right Alt bit of the StellaMod mask. -/
def KBDM_RALT : Nat := 0x0200

/-- Modelled from the spec: left GUI bit of the StellaMod mask. -/
def KBDM_LGUI : Nat := 0x0400

/-- Modelled from the spec: right GUI bit of the StellaMod mask. -/
def KBDM_RGUI : Nat := 0x0800

/-- Modelled from the spec: the Shift category mask, covering both Shift
key bits. -/
def KBDM_SHIFT : Nat := KBDM_LSHIFT ||| KBDM_RSHIFT

/-- Modelled from the spec: the Ctrl category mask, covering both Ctrl
key bits. -/
def KBDM_CTRL : Nat := KBDM_LCTRL ||| KBDM_RCTRL

/-- Modelled from the spec: the Alt category mask, covering both Alt
key bits. -/
def KBDM_ALT : Nat := KBDM_LALT ||| KBDM_RALT

/-- Modelled from the spec: the GUI category mask, covering both GUI
key bits. -/
def KBDM_GUI : Nat := KBDM_LGUI ||| KBDM_RGUI

/-- KeyMap::Mapping (src/common/KeyMap.hxx lines 34-57): EventMode, StellaKey
and StellaMod are C++ integer-backed enums, modelled as Nat. -/
structure Mapping where
  mode : Nat
  key : Nat
  mod : Nat
  deriving DecidableEq, Repr

/-- KeyMap::Mapping::operator== (src/common/KeyMap.hxx lines 47-56).  Each
C++ conditional `((mod | other.mod) & MASK) ? (mod & other.mod & MASK) : true`
converts the resulting integer to bool, i.e. tests it against zero. -/
def Mapping.beq (m other : Mapping) : Bool :=
  m.key == other.key
  && m.mode == other.mode
  && (if (m.mod ||| other.mod) &&& KBDM_SHIFT ≠ 0 then
        (m.mod &&& other.mod &&& KBDM_SHIFT) ≠ 0 else true)
  && (if (m.mod ||| other.mod) &&& KBDM_CTRL ≠ 0 then
        (m.mod &&& other.mod &&& KBDM_CTRL) ≠ 0 else true)
  && (if (m.mod ||| other.mod) &&& KBDM_ALT ≠ 0 then
        (m.mod &&& other.mod &&& KBDM_ALT) ≠ 0 else true)
  && (if (m.mod ||| other.mod) &&& KBDM_GUI ≠ 0 then
        (m.mod &&& other.mod &&& KBDM_GUI) ≠ 0 else true)

/-- KeyMap::KeyHash::operator() (src/common/KeyMap.hxx lines 105-114).
The C++ code applies std::hash of uInt64 to a 64-bit combination of the
fields; std::hash is a fixed deterministic function, so equal combinations
give equal hashes and we model the combination itself, with uInt64
arithmetic truncated mod 2^64. -/
def KeyHash (m : Mapping) : Nat :=
  (m.mode
    + m.key * 7
    + (((if (m.mod &&& KBDM_SHIFT) ≠ 0 then 1 else 0) <<< 0)
       ||| ((if (m.mod &&& KBDM_ALT) ≠ 0 then 1 else 0) <<< 1)
       ||| ((if (m.mod &&& KBDM_GUI) ≠ 0 then 1 else 0) <<< 2)
       ||| ((if (m.mod &&& KBDM_CTRL) ≠ 0 then 1 else 0) <<< 3)) * 2047)
  % (2 ^ 64)

/-- The union of the four modifier-category masks: the modifier bits that
Mapping equality looks at. -/
def KBDM_ALLMOD : Nat := KBDM_SHIFT ||| KBDM_CTRL ||| KBDM_ALT ||| KBDM_GUI

/-- The claim C1 equality, written from the spec words rather than from the
source (for comparison with Mapping.beq): two mappings are equal when key
and mode agree and, for every modifier bit set in either modifier mask, the
other mapping has that same bit set identically; modifier bits absent from
both masks are do-not-care.  Modifier bits occupy positions below 12
(the largest category bit is KBDM_RGUI = 0x800). -/
def specPerBitEq (m other : Mapping) : Prop :=
  m.key = other.key ∧ m.mode = other.mode ∧
  ∀ b : Nat, b < 12 → KBDM_ALLMOD.testBit b = true →
    m.mod.testBit b = other.mod.testBit b

instance (m other : Mapping) : Decidable (specPerBitEq m other) := by
  unfold specPerBitEq; infer_instance

end KeyMap

namespace ControllerDetector

/-- Controller::Jack (the two console controller ports). -/
inductive Jack where
  | Left
  | Right
  deriving DecidableEq, Repr

/-- ControllerDetector::searchForBytes
(src/emucore/ControllerDetector.cxx lines 86-107).  The image and the
signature are byte buffers passed with explicit sizes; we model each buffer
as a list whose length is its size.  The inner loop counts matching bytes
and breaks at the first mismatch, so a full match means every signature
byte matches; the outer loop runs i over 0 ..< imagesize - sigsize. -/
def searchForBytes (image signature : List Nat) : Bool :=
  if image.length ≥ signature.length then
    (List.range (image.length - signature.length)).any fun i =>
      (List.range signature.length).all fun j =>
        image.getD (i + j) 0 == signature.getD j 0
  else
    false

-- Signature tables, transcribed from src/emucore/ControllerDetector.cxx.
-- The name encodes function, port branch and array name in the source.

/-- usesJoystickButton, Left port, signature_0 (23 x 3 bytes). -/
def usesJoystickButton_L_signature_0 : List (List Nat) :=
  [[0x24, 0x0c, 0x10],
   [0x24, 0x0c, 0x30],
   [0xa5, 0x0c, 0x10],
   [0xa5, 0x0c, 0x30],
   [0xb5, 0x0c, 0x10],
   [0xb5, 0x0c, 0x30],
   [0x24, 0x3c, 0x10],
   [0x24, 0x3c, 0x30],
   [0xa5, 0x3c, 0x10],
   [0xa5, 0x3c, 0x30],
   [0xb5, 0x3c, 0x10],
   [0xb5, 0x3c, 0x30],
   [0xb4, 0x0c, 0x30],
   [0xa5, 0x3c, 0x2a],
   [0xa6, 0x3c, 0x8e],
   [0xa4, 0x3c, 0x8c],
   [0xa5, 0x0c, 0x8d],
   [0xa4, 0x0c, 0x30],
   [0xa4, 0x3c, 0x30],
   [0xa5, 0x0c, 0x25],
   [0xa6, 0x3c, 0x30],
   [0xa6, 0x0c, 0x30],
   [0xa5, 0x0c, 0x0a]]

/-- usesJoystickButton, Left port, signature_1 (9 x 4 bytes). -/
def usesJoystickButton_L_signature_1 : List (List Nat) :=
  [[0xb9, 0x0c, 0x00, 0x10],
   [0xb9, 0x0c, 0x00, 0x30],
   [0xb9, 0x3c, 0x00, 0x10],
   [0xb9, 0x3c, 0x00, 0x30],
   [0xa5, 0x0c, 0x0a, 0xb0],
   [0xb5, 0x0c, 0x29, 0x80],
   [0xb5, 0x3c, 0x29, 0x80],
   [0xa5, 0x0c, 0x29, 0x80],
   [0xa5, 0x3c, 0x29, 0x80]]

/-- usesJoystickButton, Left port, signature_2 (9 x 5 bytes). -/
def usesJoystickButton_L_signature_2 : List (List Nat) :=
  [[0xa5, 0x0c, 0x25, 0x0d, 0x10],
   [0xa5, 0x0c, 0x25, 0x0d, 0x30],
   [0xa5, 0x3c, 0x25, 0x3d, 0x10],
   [0xa5, 0x3c, 0x25, 0x3d, 0x30],
   [0xb5, 0x38, 0x29, 0x80, 0xd0],
   [0xa9, 0x80, 0x24, 0x0c, 0xd0],
   [0xa5, 0x0c, 0x29, 0x80, 0xd0],
   [0xa5, 0x3c, 0x29, 0x80, 0xd0],
   [0xad, 0x0c, 0x00, 0x29, 0x80]]

/-- usesJoystickButton, Right port, signature_0 (16 x 3 bytes). -/
def usesJoystickButton_R_signature_0 : List (List Nat) :=
  [[0x24, 0x0d, 0x10],
   [0x24, 0x0d, 0x30],
   [0xa5, 0x0d, 0x10],
   [0xa5, 0x0d, 0x30],
   [0xb5, 0x0c, 0x10],
   [0xb5, 0x0c, 0x30],
   [0x24, 0x3d, 0x10],
   [0x24, 0x3d, 0x30],
   [0xa5, 0x3d, 0x10],
   [0xa5, 0x3d, 0x30],
   [0xb5, 0x3c, 0x10],
   [0xb5, 0x3c, 0x30],
   [0xa4, 0x3d, 0x30],
   [0xa5, 0x0d, 0x25],
   [0xa6, 0x3d, 0x30],
   [0xa6, 0x0d, 0x30]]

/-- usesJoystickButton, Right port, signature_1 (7 x 4 bytes). -/
def usesJoystickButton_R_signature_1 : List (List Nat) :=
  [[0xb9, 0x0c, 0x00, 0x10],
   [0xb9, 0x0c, 0x00, 0x30],
   [0xb9, 0x3c, 0x00, 0x10],
   [0xb9, 0x3c, 0x00, 0x30],
   [0xb5, 0x0c, 0x29, 0x80],
   [0xb5, 0x3c, 0x29, 0x80],
   [0xa5, 0x3d, 0x29, 0x80]]

/-- usesJoystickButton, Right port, signature_2 (3 x 5 bytes). -/
def usesJoystickButton_R_signature_2 : List (List Nat) :=
  [[0xb5, 0x38, 0x29, 0x80, 0xd0],
   [0xa9, 0x80, 0x24, 0x0d, 0xd0],
   [0xad, 0x0d, 0x00, 0x29, 0x80]]

/-- usesKeyboard, Left port, signature_0_0 (6 x 3 bytes). -/
def usesKeyboard_L_signature_0_0 : List (List Nat) :=
  [[0x24, 0x38, 0x30],
   [0xa5, 0x38, 0x10],
   [0xa4, 0x38, 0x30],
   [0xb5, 0x38, 0x30],
   [0x24, 0x08, 0x30],
   [0xa6, 0x08, 0x30]]

/-- usesKeyboard, Left port, signature_0_2 (1 x 5 bytes). -/
def usesKeyboard_L_signature_0_2 : List (List Nat) :=
  [[0xb5, 0x38, 0x29, 0x80, 0xd0]]

/-- usesKeyboard, Left port, signature_1_0 (7 x 3 bytes). -/
def usesKeyboard_L_signature_1_0 : List (List Nat) :=
  [[0x24, 0x39, 0x10],
   [0x24, 0x39, 0x30],
   [0xa5, 0x39, 0x10],
   [0xa4, 0x39, 0x30],
   [0xb5, 0x38, 0x30],
   [0x24, 0x09, 0x30],
   [0xa6, 0x09, 0x30]]

/-- usesKeyboard, Left port, signature_1_2 (1 x 5 bytes). -/
def usesKeyboard_L_signature_1_2 : List (List Nat) :=
  [[0xb5, 0x38, 0x29, 0x80, 0xd0]]

/-- usesKeyboard, Right port, signature_0_0 (5 x 3 bytes). -/
def usesKeyboard_R_signature_0_0 : List (List Nat) :=
  [[0x24, 0x3a, 0x30],
   [0xa5, 0x3a, 0x10],
   [0xa4, 0x3a, 0x30],
   [0x24, 0x0a, 0x30],
   [0xa6, 0x0a, 0x30]]

/-- usesKeyboard, Right port, signature_0_2 (1 x 5 bytes). -/
def usesKeyboard_R_signature_0_2 : List (List Nat) :=
  [[0xb5, 0x38, 0x29, 0x80, 0xd0]]

/-- usesKeyboard, Right port, signature_1_0 (5 x 3 bytes). -/
def usesKeyboard_R_signature_1_0 : List (List Nat) :=
  [[0x24, 0x3b, 0x30],
   [0xa5, 0x3b, 0x10],
   [0xa4, 0x3b, 0x30],
   [0x24, 0x0b, 0x30],
   [0xa6, 0x0b, 0x30]]

/-- usesKeyboard, Right port, signature_1_2 (1 x 5 bytes). -/
def usesKeyboard_R_signature_1_2 : List (List Nat) :=
  [[0xb5, 0x38, 0x29, 0x80, 0xd0]]

/-- usesGenesisButton, Left port, signature_0 (18 x 3 bytes). -/
def usesGenesisButton_L_signature_0 : List (List Nat) :=
  [[0x24, 0x09, 0x10],
   [0x24, 0x09, 0x30],
   [0xa5, 0x09, 0x10],
   [0xa5, 0x09, 0x30],
   [0xa4, 0x09, 0x30],
   [0xa6, 0x09, 0x30],
   [0x24, 0x39, 0x10],
   [0x24, 0x39, 0x30],
   [0xa5, 0x39, 0x10],
   [0xa5, 0x39, 0x30],
   [0xa4, 0x39, 0x30],
   [0xa5, 0x39, 0x6a],
   [0xa6, 0x39, 0x8e],
   [0xa4, 0x39, 0x8c],
   [0xa5, 0x09, 0x8d],
   [0xa5, 0x09, 0x29],
   [0x25, 0x39, 0x30],
   [0x25, 0x09, 0x10]]

/-- usesGenesisButton, Right port, signature_0 (10 x 3 bytes). -/
def usesGenesisButton_R_signature_0 : List (List Nat) :=
  [[0x24, 0x0b, 0x10],
   [0x24, 0x0b, 0x30],
   [0xa5, 0x0b, 0x10],
   [0xa5, 0x0b, 0x30],
   [0x24, 0x3b, 0x10],
   [0x24, 0x3b, 0x30],
   [0xa5, 0x3b, 0x10],
   [0xa5, 0x3b, 0x30],
   [0xa6, 0x3b, 0x8e],
   [0x25, 0x0b, 0x10]]

/-- usesPaddle, Left port, signature_0 (12 x 3 bytes; commented-out rows of
the source are omitted exactly as the compiler omits them). -/
def usesPaddle_L_signature_0 : List (List Nat) :=
  [[0xa5, 0x08, 0x10],
   [0xa5, 0x08, 0x30],
   [0xb5, 0x08, 0x30],
   [0x24, 0x38, 0x10],
   [0x24, 0x38, 0x30],
   [0xa5, 0x38, 0x10],
   [0xa5, 0x38, 0x30],
   [0xb5, 0x38, 0x10],
   [0xb5, 0x38, 0x30],
   [0x68, 0x48, 0x10],
   [0xa5, 0x08, 0x4c],
   [0xa4, 0x38, 0x30]]

/-- usesPaddle, Left port, signature_1 (3 x 4 bytes). -/
def usesPaddle_L_signature_1 : List (List Nat) :=
  [[0xb9, 0x08, 0x00, 0x30],
   [0xb9, 0x38, 0x00, 0x30],
   [0x24, 0x08, 0x30, 0x02]]

/-- usesPaddle, Left port, signature_2 (4 x 5 bytes). -/
def usesPaddle_L_signature_2 : List (List Nat) :=
  [[0xb5, 0x38, 0x29, 0x80, 0xd0],
   [0x24, 0x38, 0x85, 0x08, 0x10],
   [0xb5, 0x38, 0x49, 0xff, 0x0a],
   [0xb1, 0xf2, 0x30, 0x02, 0xe6]]

/-- usesPaddle, Right port, signature_0 (18 x 3 bytes). -/
def usesPaddle_R_signature_0 : List (List Nat) :=
  [[0x24, 0x0a, 0x10],
   [0x24, 0x0a, 0x30],
   [0xa5, 0x0a, 0x10],
   [0xa5, 0x0a, 0x30],
   [0xb5, 0x0a, 0x10],
   [0xb5, 0x0a, 0x30],
   [0xb5, 0x08, 0x10],
   [0xb5, 0x08, 0x30],
   [0x24, 0x3a, 0x10],
   [0x24, 0x3a, 0x30],
   [0xa5, 0x3a, 0x10],
   [0xa5, 0x3a, 0x30],
   [0xb5, 0x3a, 0x10],
   [0xb5, 0x3a, 0x30],
   [0xb5, 0x38, 0x10],
   [0xb5, 0x38, 0x30],
   [0xa4, 0x3a, 0x30],
   [0xa5, 0x3b, 0x30]]

/-- usesPaddle, Right port, signature_1 (1 x 4 bytes). -/
def usesPaddle_R_signature_1 : List (List Nat) :=
  [[0xb9, 0x38, 0x00, 0x30]]

/-- usesPaddle, Right port, signature_2 (3 x 5 bytes). -/
def usesPaddle_R_signature_2 : List (List Nat) :=
  [[0xb5, 0x38, 0x29, 0x80, 0xd0],
   [0x24, 0x38, 0x85, 0x08, 0x10],
   [0xb5, 0x38, 0x49, 0xff, 0x0a]]

/-- isProbablyTrakBall signature table (3 x 6 bytes; the first row is
written with binary literals in the source). -/
def isProbablyTrakBall_signature : List (List Nat) :=
  [[0x0a, 0x08, 0x08, 0x0a, 0x02, 0x00],
   [0x00, 0x07, 0x87, 0x07, 0x88, 0x01],
   [0x00, 0x01, 0x81, 0x01, 0x82, 0x03]]

/-- isProbablyAtariMouse signature table (3 x 6 bytes). -/
def isProbablyAtariMouse_signature : List (List Nat) :=
  [[0x05, 0x07, 0x04, 0x06, 0x0d, 0x0f],
   [0x00, 0x87, 0x07, 0x00, 0x08, 0x81],
   [0x00, 0x81, 0x01, 0x00, 0x02, 0x83]]

/-- isProbablyAmigaMouse signature table (4 x 6 bytes). -/
def isProbablyAmigaMouse_signature : List (List Nat) :=
  [[0x0c, 0x08, 0x04, 0x00, 0x0d, 0x09],
   [0x00, 0x88, 0x07, 0x01, 0x08, 0x00],
   [0x00, 0x82, 0x01, 0x03, 0x02, 0x00],
   [0x04, 0x00, 0x00, 0x00, 0x05, 0x01]]

/-- isProbablySaveKey signature table, Right port (4 x 9 bytes: the I2C
handshake code sequences). -/
def isProbablySaveKey_R_signature : List (List Nat) :=
  [[0xa9, 0x08, 0x8d, 0x80, 0x02, 0xa9, 0x0c, 0x8d, 0x81],
   [0xa9, 0x18, 0x8d, 0x80, 0x02, 0x4a, 0x8d, 0x81, 0x02],
   [0xa2, 0x08, 0x8e, 0x80, 0x02, 0xa2, 0x0c, 0x8e, 0x81],
   [0xa9, 0x08, 0x8d, 0x80, 0x02, 0xea, 0xa9, 0x0c, 0x8d]]

/-- ControllerDetector::usesJoystickButton
(src/emucore/ControllerDetector.cxx lines 110-236): each signature table is
scanned in order and the first hit returns true. -/
def usesJoystickButton (image : List Nat) (port : Jack) : Bool :=
  match port with
  | .Left =>
      usesJoystickButton_L_signature_0.any (searchForBytes image ·)
      || usesJoystickButton_L_signature_1.any (searchForBytes image ·)
      || usesJoystickButton_L_signature_2.any (searchForBytes image ·)
  | .Right =>
      usesJoystickButton_R_signature_0.any (searchForBytes image ·)
      || usesJoystickButton_R_signature_1.any (searchForBytes image ·)
      || usesJoystickButton_R_signature_2.any (searchForBytes image ·)

/-- ControllerDetector::usesKeyboard
(src/emucore/ControllerDetector.cxx lines 239-374): two-phase check, the
_0_ tables must hit (found) and then one of the _1_ tables must hit. -/
def usesKeyboard (image : List Nat) (port : Jack) : Bool :=
  match port with
  | .Left =>
      (usesKeyboard_L_signature_0_0.any (searchForBytes image ·)
        || usesKeyboard_L_signature_0_2.any (searchForBytes image ·))
      && (usesKeyboard_L_signature_1_0.any (searchForBytes image ·)
        || usesKeyboard_L_signature_1_2.any (searchForBytes image ·))
  | .Right =>
      (usesKeyboard_R_signature_0_0.any (searchForBytes image ·)
        || usesKeyboard_R_signature_0_2.any (searchForBytes image ·))
      && (usesKeyboard_R_signature_1_0.any (searchForBytes image ·)
        || usesKeyboard_R_signature_1_2.any (searchForBytes image ·))

/-- ControllerDetector::usesGenesisButton
(src/emucore/ControllerDetector.cxx lines 377-430). -/
def usesGenesisButton (image : List Nat) (port : Jack) : Bool :=
  match port with
  | .Left => usesGenesisButton_L_signature_0.any (searchForBytes image ·)
  | .Right => usesGenesisButton_R_signature_0.any (searchForBytes image ·)

/-- ControllerDetector::usesPaddle
(src/emucore/ControllerDetector.cxx lines 433-538).  The Settings parameter
of the source is never read in the function body and is dropped here. -/
def usesPaddle (image : List Nat) (port : Jack) : Bool :=
  match port with
  | .Left =>
      usesPaddle_L_signature_0.any (searchForBytes image ·)
      || usesPaddle_L_signature_1.any (searchForBytes image ·)
      || usesPaddle_L_signature_2.any (searchForBytes image ·)
  | .Right =>
      usesPaddle_R_signature_0.any (searchForBytes image ·)
      || usesPaddle_R_signature_1.any (searchForBytes image ·)
      || usesPaddle_R_signature_2.any (searchForBytes image ·)

/-- ControllerDetector::isProbablyTrakBall
(src/emucore/ControllerDetector.cxx lines 541-557). -/
def isProbablyTrakBall (image : List Nat) : Bool :=
  isProbablyTrakBall_signature.any (searchForBytes image ·)

/-- ControllerDetector::isProbablyAtariMouse
(src/emucore/ControllerDetector.cxx lines 560-576). -/
def isProbablyAtariMouse (image : List Nat) : Bool :=
  isProbablyAtariMouse_signature.any (searchForBytes image ·)

/-- ControllerDetector::isProbablyAmigaMouse
(src/emucore/ControllerDetector.cxx lines 579-596). -/
def isProbablyAmigaMouse (image : List Nat) : Bool :=
  isProbablyAmigaMouse_signature.any (searchForBytes image ·)

/-- ControllerDetector::isProbablySaveKey
(src/emucore/ControllerDetector.cxx lines 599-640): only the right port is
checked; on the left port the result is false. -/
def isProbablySaveKey (image : List Nat) (port : Jack) : Bool :=
  match port with
  | .Right => isProbablySaveKey_R_signature.any (searchForBytes image ·)
  | .Left => false

/-- ControllerDetector::autodetectPort
(src/emucore/ControllerDetector.cxx lines 54-83): the ordered cascade.
The Settings parameter is only forwarded to usesPaddle, which ignores it,
so it is dropped here. -/
def autodetectPort (image : List Nat) (port : Jack) : String :=
  if isProbablySaveKey image port then "SAVEKEY"
  else if usesJoystickButton image port then
    if isProbablyTrakBall image then "TRAKBALL"
    else if isProbablyAtariMouse image then "ATARIMOUSE"
    else if isProbablyAmigaMouse image then "AMIGAMOUSE"
    else if usesKeyboard image port then "KEYBOARD"
    else if usesGenesisButton image port then "GENESIS"
    else "JOYSTICK"
  else
    if usesPaddle image port then "PADDLES"
    else "JOYSTICK"

end ControllerDetector


/-- The events named in src/emucore/EventHandler.cxx: the NoType
sentinel and the 157 events of ourEmulActionList (a superset of the
case labels of the handleEvent switch).  Event::Type itself is declared
in Event.hxx, which is not part of the excerpt; EventType below adds
the residual members of the enumeration. -/
inductive EventName where
  | NoType
  | Quit
  | ExitMode
  | OptionsMenuMode
  | CmdMenuMode
  | DebuggerMode
  | ConsoleSelect
  | ConsoleReset
  | ConsoleColor
  | ConsoleBlackWhite
  | ConsoleColorToggle
  | Console7800Pause
  | ConsoleLeftDiffA
  | ConsoleLeftDiffB
  | ConsoleLeftDiffToggle
  | ConsoleRightDiffA
  | ConsoleRightDiffB
  | ConsoleRightDiffToggle
  | SaveState
  | ChangeState
  | ToggleAutoSlot
  | LoadState
  | TakeSnapshot
  | TogglePauseMode
  | StartPauseMode
  | JoystickZeroUp
  | JoystickZeroDown
  | JoystickZeroLeft
  | JoystickZeroRight
  | JoystickZeroFire
  | JoystickZeroFire5
  | JoystickZeroFire9
  | JoystickOneUp
  | JoystickOneDown
  | JoystickOneLeft
  | JoystickOneRight
  | JoystickOneFire
  | JoystickOneFire5
  | JoystickOneFire9
  | PaddleZeroAnalog
  | PaddleZeroDecrease
  | PaddleZeroIncrease
  | PaddleZeroFire
  | PaddleOneAnalog
  | PaddleOneDecrease
  | PaddleOneIncrease
  | PaddleOneFire
  | PaddleTwoAnalog
  | PaddleTwoDecrease
  | PaddleTwoIncrease
  | PaddleTwoFire
  | PaddleThreeAnalog
  | PaddleThreeDecrease
  | PaddleThreeIncrease
  | PaddleThreeFire
  | KeyboardZero1
  | KeyboardZero2
  | KeyboardZero3
  | KeyboardZero4
  | KeyboardZero5
  | KeyboardZero6
  | KeyboardZero7
  | KeyboardZero8
  | KeyboardZero9
  | KeyboardZeroStar
  | KeyboardZero0
  | KeyboardZeroPound
  | KeyboardOne1
  | KeyboardOne2
  | KeyboardOne3
  | KeyboardOne4
  | KeyboardOne5
  | KeyboardOne6
  | KeyboardOne7
  | KeyboardOne8
  | KeyboardOne9
  | KeyboardOneStar
  | KeyboardOne0
  | KeyboardOnePound
  | VidmodeStd
  | VidmodeRGB
  | VidmodeSVideo
  | VidModeComposite
  | VidModeBad
  | VidModeCustom
  | PreviousAttribute
  | NextAttribute
  | DecreaseAttribute
  | IncreaseAttribute
  | TogglePhosphor
  | DecreasePhosphor
  | IncreasePhosphor
  | ScanlinesDecrease
  | ScanlinesIncrease
  | ToggleFrameStats
  | ToggleP0Bit
  | ToggleP0Collision
  | ToggleP1Bit
  | ToggleP1Collision
  | ToggleM0Bit
  | ToggleM0Collision
  | ToggleM1Bit
  | ToggleM1Collision
  | ToggleBLBit
  | ToggleBLCollision
  | TogglePFBit
  | TogglePFCollision
  | ToggleBits
  | ToggleCollisions
  | ToggleFixedColors
  | ToggleColorLoss
  | ToggleJitter
  | VidmodeDecrease
  | VidmodeIncrease
  | ToggleFullScreen
  | DecreaseOverscan
  | IncreaseOverScan
  | DecreaseFormat
  | IncreaseFormat
  | TogglePalette
  | SoundToggle
  | VolumeDecrease
  | VolumeIncrease
  | HandleMouseControl
  | ToggleGrabMouse
  | ToggleSAPortOrder
  | ReloadConsole
  | Fry
  | ToggleContSnapshots
  | ToggleContSnapshotsFrame
  | ToggleTimeMachine
  | TimeMachineMode
  | RewindPause
  | Rewind1Menu
  | Rewind10Menu
  | RewindAllMenu
  | UnwindPause
  | Unwind1Menu
  | Unwind10Menu
  | UnwindAllMenu
  | SaveAllStates
  | LoadAllStates
  | Combo1
  | Combo2
  | Combo3
  | Combo4
  | Combo5
  | Combo6
  | Combo7
  | Combo8
  | Combo9
  | Combo10
  | Combo11
  | Combo12
  | Combo13
  | Combo14
  | Combo15
  | Combo16
  deriving DecidableEq, Repr, Inhabited

/-- Event::Type, modelled as the events named in the embedded source
plus a residual family `other n` standing for the remaining members of
the C++ enumeration: none of those is named in the embedded code and
all of them fall to the default branch of the handleEvent switch. -/
inductive EventType where
  | named (e : EventName)
  | other (n : Int)
  deriving DecidableEq, Repr, Inhabited

-- Pattern abbreviations so that the named events read as in the source.

@[match_pattern, reducible] def EventType.NoType : EventType := .named .NoType
@[match_pattern, reducible] def EventType.Quit : EventType := .named .Quit
@[match_pattern, reducible] def EventType.ExitMode : EventType := .named .ExitMode
@[match_pattern, reducible] def EventType.OptionsMenuMode : EventType := .named .OptionsMenuMode
@[match_pattern, reducible] def EventType.CmdMenuMode : EventType := .named .CmdMenuMode
@[match_pattern, reducible] def EventType.DebuggerMode : EventType := .named .DebuggerMode
@[match_pattern, reducible] def EventType.ConsoleSelect : EventType := .named .ConsoleSelect
@[match_pattern, reducible] def EventType.ConsoleReset : EventType := .named .ConsoleReset
@[match_pattern, reducible] def EventType.ConsoleColor : EventType := .named .ConsoleColor
@[match_pattern, reducible] def EventType.ConsoleBlackWhite : EventType := .named .ConsoleBlackWhite
@[match_pattern, reducible] def EventType.ConsoleColorToggle : EventType := .named .ConsoleColorToggle
@[match_pattern, reducible] def EventType.Console7800Pause : EventType := .named .Console7800Pause
@[match_pattern, reducible] def EventType.ConsoleLeftDiffA : EventType := .named .ConsoleLeftDiffA
@[match_pattern, reducible] def EventType.ConsoleLeftDiffB : EventType := .named .ConsoleLeftDiffB
@[match_pattern, reducible] def EventType.ConsoleLeftDiffToggle : EventType := .named .ConsoleLeftDiffToggle
@[match_pattern, reducible] def EventType.ConsoleRightDiffA : EventType := .named .ConsoleRightDiffA
@[match_pattern, reducible] def EventType.ConsoleRightDiffB : EventType := .named .ConsoleRightDiffB
@[match_pattern, reducible] def EventType.ConsoleRightDiffToggle : EventType := .named .ConsoleRightDiffToggle
@[match_pattern, reducible] def EventType.SaveState : EventType := .named .SaveState
@[match_pattern, reducible] def EventType.ChangeState : EventType := .named .ChangeState
@[match_pattern, reducible] def EventType.ToggleAutoSlot : EventType := .named .ToggleAutoSlot
@[match_pattern, reducible] def EventType.LoadState : EventType := .named .LoadState
@[match_pattern, reducible] def EventType.TakeSnapshot : EventType := .named .TakeSnapshot
@[match_pattern, reducible] def EventType.TogglePauseMode : EventType := .named .TogglePauseMode
@[match_pattern, reducible] def EventType.StartPauseMode : EventType := .named .StartPauseMode
@[match_pattern, reducible] def EventType.JoystickZeroUp : EventType := .named .JoystickZeroUp
@[match_pattern, reducible] def EventType.JoystickZeroDown : EventType := .named .JoystickZeroDown
@[match_pattern, reducible] def EventType.JoystickZeroLeft : EventType := .named .JoystickZeroLeft
@[match_pattern, reducible] def EventType.JoystickZeroRight : EventType := .named .JoystickZeroRight
@[match_pattern, reducible] def EventType.JoystickZeroFire : EventType := .named .JoystickZeroFire
@[match_pattern, reducible] def EventType.JoystickZeroFire5 : EventType := .named .JoystickZeroFire5
@[match_pattern, reducible] def EventType.JoystickZeroFire9 : EventType := .named .JoystickZeroFire9
@[match_pattern, reducible] def EventType.JoystickOneUp : EventType := .named .JoystickOneUp
@[match_pattern, reducible] def EventType.JoystickOneDown : EventType := .named .JoystickOneDown
@[match_pattern, reducible] def EventType.JoystickOneLeft : EventType := .named .JoystickOneLeft
@[match_pattern, reducible] def EventType.JoystickOneRight : EventType := .named .JoystickOneRight
@[match_pattern, reducible] def EventType.JoystickOneFire : EventType := .named .JoystickOneFire
@[match_pattern, reducible] def EventType.JoystickOneFire5 : EventType := .named .JoystickOneFire5
@[match_pattern, reducible] def EventType.JoystickOneFire9 : EventType := .named .JoystickOneFire9
@[match_pattern, reducible] def EventType.PaddleZeroAnalog : EventType := .named .PaddleZeroAnalog
@[match_pattern, reducible] def EventType.PaddleZeroDecrease : EventType := .named .PaddleZeroDecrease
@[match_pattern, reducible] def EventType.PaddleZeroIncrease : EventType := .named .PaddleZeroIncrease
@[match_pattern, reducible] def EventType.PaddleZeroFire : EventType := .named .PaddleZeroFire
@[match_pattern, reducible] def EventType.PaddleOneAnalog : EventType := .named .PaddleOneAnalog
@[match_pattern, reducible] def EventType.PaddleOneDecrease : EventType := .named .PaddleOneDecrease
@[match_pattern, reducible] def EventType.PaddleOneIncrease : EventType := .named .PaddleOneIncrease
@[match_pattern, reducible] def EventType.PaddleOneFire : EventType := .named .PaddleOneFire
@[match_pattern, reducible] def EventType.PaddleTwoAnalog : EventType := .named .PaddleTwoAnalog
@[match_pattern, reducible] def EventType.PaddleTwoDecrease : EventType := .named .PaddleTwoDecrease
@[match_pattern, reducible] def EventType.PaddleTwoIncrease : EventType := .named .PaddleTwoIncrease
@[match_pattern, reducible] def EventType.PaddleTwoFire : EventType := .named .PaddleTwoFire
@[match_pattern, reducible] def EventType.PaddleThreeAnalog : EventType := .named .PaddleThreeAnalog
@[match_pattern, reducible] def EventType.PaddleThreeDecrease : EventType := .named .PaddleThreeDecrease
@[match_pattern, reducible] def EventType.PaddleThreeIncrease : EventType := .named .PaddleThreeIncrease
@[match_pattern, reducible] def EventType.PaddleThreeFire : EventType := .named .PaddleThreeFire
@[match_pattern, reducible] def EventType.KeyboardZero1 : EventType := .named .KeyboardZero1
@[match_pattern, reducible] def EventType.KeyboardZero2 : EventType := .named .KeyboardZero2
@[match_pattern, reducible] def EventType.KeyboardZero3 : EventType := .named .KeyboardZero3
@[match_pattern, reducible] def EventType.KeyboardZero4 : EventType := .named .KeyboardZero4
@[match_pattern, reducible] def EventType.KeyboardZero5 : EventType := .named .KeyboardZero5
@[match_pattern, reducible] def EventType.KeyboardZero6 : EventType := .named .KeyboardZero6
@[match_pattern, reducible] def EventType.KeyboardZero7 : EventType := .named .KeyboardZero7
@[match_pattern, reducible] def EventType.KeyboardZero8 : EventType := .named .KeyboardZero8
@[match_pattern, reducible] def EventType.KeyboardZero9 : EventType := .named .KeyboardZero9
@[match_pattern, reducible] def EventType.KeyboardZeroStar : EventType := .named .KeyboardZeroStar
@[match_pattern, reducible] def EventType.KeyboardZero0 : EventType := .named .KeyboardZero0
@[match_pattern, reducible] def EventType.KeyboardZeroPound : EventType := .named .KeyboardZeroPound
@[match_pattern, reducible] def EventType.KeyboardOne1 : EventType := .named .KeyboardOne1
@[match_pattern, reducible] def EventType.KeyboardOne2 : EventType := .named .KeyboardOne2
@[match_pattern, reducible] def EventType.KeyboardOne3 : EventType := .named .KeyboardOne3
@[match_pattern, reducible] def EventType.KeyboardOne4 : EventType := .named .KeyboardOne4
@[match_pattern, reducible] def EventType.KeyboardOne5 : EventType := .named .KeyboardOne5
@[match_pattern, reducible] def EventType.KeyboardOne6 : EventType := .named .KeyboardOne6
@[match_pattern, reducible] def EventType.KeyboardOne7 : EventType := .named .KeyboardOne7
@[match_pattern, reducible] def EventType.KeyboardOne8 : EventType := .named .KeyboardOne8
@[match_pattern, reducible] def EventType.KeyboardOne9 : EventType := .named .KeyboardOne9
@[match_pattern, reducible] def EventType.KeyboardOneStar : EventType := .named .KeyboardOneStar
@[match_pattern, reducible] def EventType.KeyboardOne0 : EventType := .named .KeyboardOne0
@[match_pattern, reducible] def EventType.KeyboardOnePound : EventType := .named .KeyboardOnePound
@[match_pattern, reducible] def EventType.VidmodeStd : EventType := .named .VidmodeStd
@[match_pattern, reducible] def EventType.VidmodeRGB : EventType := .named .VidmodeRGB
@[match_pattern, reducible] def EventType.VidmodeSVideo : EventType := .named .VidmodeSVideo
@[match_pattern, reducible] def EventType.VidModeComposite : EventType := .named .VidModeComposite
@[match_pattern, reducible] def EventType.VidModeBad : EventType := .named .VidModeBad
@[match_pattern, reducible] def EventType.VidModeCustom : EventType := .named .VidModeCustom
@[match_pattern, reducible] def EventType.PreviousAttribute : EventType := .named .PreviousAttribute
@[match_pattern, reducible] def EventType.NextAttribute : EventType := .named .NextAttribute
@[match_pattern, reducible] def EventType.DecreaseAttribute : EventType := .named .DecreaseAttribute
@[match_pattern, reducible] def EventType.IncreaseAttribute : EventType := .named .IncreaseAttribute
@[match_pattern, reducible] def EventType.TogglePhosphor : EventType := .named .TogglePhosphor
@[match_pattern, reducible] def EventType.DecreasePhosphor : EventType := .named .DecreasePhosphor
@[match_pattern, reducible] def EventType.IncreasePhosphor : EventType := .named .IncreasePhosphor
@[match_pattern, reducible] def EventType.ScanlinesDecrease : EventType := .named .ScanlinesDecrease
@[match_pattern, reducible] def EventType.ScanlinesIncrease : EventType := .named .ScanlinesIncrease
@[match_pattern, reducible] def EventType.ToggleFrameStats : EventType := .named .ToggleFrameStats
@[match_pattern, reducible] def EventType.ToggleP0Bit : EventType := .named .ToggleP0Bit
@[match_pattern, reducible] def EventType.ToggleP0Collision : EventType := .named .ToggleP0Collision
@[match_pattern, reducible] def EventType.ToggleP1Bit : EventType := .named .ToggleP1Bit
@[match_pattern, reducible] def EventType.ToggleP1Collision : EventType := .named .ToggleP1Collision
@[match_pattern, reducible] def EventType.ToggleM0Bit : EventType := .named .ToggleM0Bit
@[match_pattern, reducible] def EventType.ToggleM0Collision : EventType := .named .ToggleM0Collision
@[match_pattern, reducible] def EventType.ToggleM1Bit : EventType := .named .ToggleM1Bit
@[match_pattern, reducible] def EventType.ToggleM1Collision : EventType := .named .ToggleM1Collision
@[match_pattern, reducible] def EventType.ToggleBLBit : EventType := .named .ToggleBLBit
@[match_pattern, reducible] def EventType.ToggleBLCollision : EventType := .named .ToggleBLCollision
@[match_pattern, reducible] def EventType.TogglePFBit : EventType := .named .TogglePFBit
@[match_pattern, reducible] def EventType.TogglePFCollision : EventType := .named .TogglePFCollision
@[match_pattern, reducible] def EventType.ToggleBits : EventType := .named .ToggleBits
@[match_pattern, reducible] def EventType.ToggleCollisions : EventType := .named .ToggleCollisions
@[match_pattern, reducible] def EventType.ToggleFixedColors : EventType := .named .ToggleFixedColors
@[match_pattern, reducible] def EventType.ToggleColorLoss : EventType := .named .ToggleColorLoss
@[match_pattern, reducible] def EventType.ToggleJitter : EventType := .named .ToggleJitter
@[match_pattern, reducible] def EventType.VidmodeDecrease : EventType := .named .VidmodeDecrease
@[match_pattern, reducible] def EventType.VidmodeIncrease : EventType := .named .VidmodeIncrease
@[match_pattern, reducible] def EventType.ToggleFullScreen : EventType := .named .ToggleFullScreen
@[match_pattern, reducible] def EventType.DecreaseOverscan : EventType := .named .DecreaseOverscan
@[match_pattern, reducible] def EventType.IncreaseOverScan : EventType := .named .IncreaseOverScan
@[match_pattern, reducible] def EventType.DecreaseFormat : EventType := .named .DecreaseFormat
@[match_pattern, reducible] def EventType.IncreaseFormat : EventType := .named .IncreaseFormat
@[match_pattern, reducible] def EventType.TogglePalette : EventType := .named .TogglePalette
@[match_pattern, reducible] def EventType.SoundToggle : EventType := .named .SoundToggle
@[match_pattern, reducible] def EventType.VolumeDecrease : EventType := .named .VolumeDecrease
@[match_pattern, reducible] def EventType.VolumeIncrease : EventType := .named .VolumeIncrease
@[match_pattern, reducible] def EventType.HandleMouseControl : EventType := .named .HandleMouseControl
@[match_pattern, reducible] def EventType.ToggleGrabMouse : EventType := .named .ToggleGrabMouse
@[match_pattern, reducible] def EventType.ToggleSAPortOrder : EventType := .named .ToggleSAPortOrder
@[match_pattern, reducible] def EventType.ReloadConsole : EventType := .named .ReloadConsole
@[match_pattern, reducible] def EventType.Fry : EventType := .named .Fry
@[match_pattern, reducible] def EventType.ToggleContSnapshots : EventType := .named .ToggleContSnapshots
@[match_pattern, reducible] def EventType.ToggleContSnapshotsFrame : EventType := .named .ToggleContSnapshotsFrame
@[match_pattern, reducible] def EventType.ToggleTimeMachine : EventType := .named .ToggleTimeMachine
@[match_pattern, reducible] def EventType.TimeMachineMode : EventType := .named .TimeMachineMode
@[match_pattern, reducible] def EventType.RewindPause : EventType := .named .RewindPause
@[match_pattern, reducible] def EventType.Rewind1Menu : EventType := .named .Rewind1Menu
@[match_pattern, reducible] def EventType.Rewind10Menu : EventType := .named .Rewind10Menu
@[match_pattern, reducible] def EventType.RewindAllMenu : EventType := .named .RewindAllMenu
@[match_pattern, reducible] def EventType.UnwindPause : EventType := .named .UnwindPause
@[match_pattern, reducible] def EventType.Unwind1Menu : EventType := .named .Unwind1Menu
@[match_pattern, reducible] def EventType.Unwind10Menu : EventType := .named .Unwind10Menu
@[match_pattern, reducible] def EventType.UnwindAllMenu : EventType := .named .UnwindAllMenu
@[match_pattern, reducible] def EventType.SaveAllStates : EventType := .named .SaveAllStates
@[match_pattern, reducible] def EventType.LoadAllStates : EventType := .named .LoadAllStates
@[match_pattern, reducible] def EventType.Combo1 : EventType := .named .Combo1
@[match_pattern, reducible] def EventType.Combo2 : EventType := .named .Combo2
@[match_pattern, reducible] def EventType.Combo3 : EventType := .named .Combo3
@[match_pattern, reducible] def EventType.Combo4 : EventType := .named .Combo4
@[match_pattern, reducible] def EventType.Combo5 : EventType := .named .Combo5
@[match_pattern, reducible] def EventType.Combo6 : EventType := .named .Combo6
@[match_pattern, reducible] def EventType.Combo7 : EventType := .named .Combo7
@[match_pattern, reducible] def EventType.Combo8 : EventType := .named .Combo8
@[match_pattern, reducible] def EventType.Combo9 : EventType := .named .Combo9
@[match_pattern, reducible] def EventType.Combo10 : EventType := .named .Combo10
@[match_pattern, reducible] def EventType.Combo11 : EventType := .named .Combo11
@[match_pattern, reducible] def EventType.Combo12 : EventType := .named .Combo12
@[match_pattern, reducible] def EventType.Combo13 : EventType := .named .Combo13
@[match_pattern, reducible] def EventType.Combo14 : EventType := .named .Combo14
@[match_pattern, reducible] def EventType.Combo15 : EventType := .named .Combo15
@[match_pattern, reducible] def EventType.Combo16 : EventType := .named .Combo16

/-- EventHandler::ourEmulActionList (src/emucore/EventHandler.cxx lines
1576-1751): the event field of each entry, split into four consecutive
segments (a single long list literal is hard on the elaborator).
Entries 0-39 of the action list. -/
def ourEmulActionList_0 : List EventType :=
  [.Quit, .ExitMode, .OptionsMenuMode, .CmdMenuMode, .DebuggerMode,
   .ConsoleSelect, .ConsoleReset, .ConsoleColor, .ConsoleBlackWhite,
   .ConsoleColorToggle, .Console7800Pause, .ConsoleLeftDiffA,
   .ConsoleLeftDiffB, .ConsoleLeftDiffToggle, .ConsoleRightDiffA,
   .ConsoleRightDiffB, .ConsoleRightDiffToggle, .SaveState, .ChangeState,
   .ToggleAutoSlot, .LoadState, .TakeSnapshot, .TogglePauseMode,
   .StartPauseMode, .JoystickZeroUp, .JoystickZeroDown, .JoystickZeroLeft,
   .JoystickZeroRight, .JoystickZeroFire, .JoystickZeroFire5,
   .JoystickZeroFire9, .JoystickOneUp, .JoystickOneDown, .JoystickOneLeft,
   .JoystickOneRight, .JoystickOneFire, .JoystickOneFire5,
   .JoystickOneFire9, .PaddleZeroAnalog, .PaddleZeroDecrease]

/-- Entries 40-79 of ourEmulActionList. -/
def ourEmulActionList_1 : List EventType :=
  [.PaddleZeroIncrease, .PaddleZeroFire, .PaddleOneAnalog,
   .PaddleOneDecrease, .PaddleOneIncrease, .PaddleOneFire, .PaddleTwoAnalog,
   .PaddleTwoDecrease, .PaddleTwoIncrease, .PaddleTwoFire,
   .PaddleThreeAnalog, .PaddleThreeDecrease, .PaddleThreeIncrease,
   .PaddleThreeFire, .KeyboardZero1, .KeyboardZero2, .KeyboardZero3,
   .KeyboardZero4, .KeyboardZero5, .KeyboardZero6, .KeyboardZero7,
   .KeyboardZero8, .KeyboardZero9, .KeyboardZeroStar, .KeyboardZero0,
   .KeyboardZeroPound, .KeyboardOne1, .KeyboardOne2, .KeyboardOne3,
   .KeyboardOne4, .KeyboardOne5, .KeyboardOne6, .KeyboardOne7,
   .KeyboardOne8, .KeyboardOne9, .KeyboardOneStar, .KeyboardOne0,
   .KeyboardOnePound, .VidmodeStd, .VidmodeRGB]

/-- Entries 80-119 of ourEmulActionList. -/
def ourEmulActionList_2 : List EventType :=
  [.VidmodeSVideo, .VidModeComposite, .VidModeBad, .VidModeCustom,
   .PreviousAttribute, .NextAttribute, .DecreaseAttribute,
   .IncreaseAttribute, .TogglePhosphor, .DecreasePhosphor,
   .IncreasePhosphor, .ScanlinesDecrease, .ScanlinesIncrease,
   .ToggleFrameStats, .ToggleP0Bit, .ToggleP0Collision, .ToggleP1Bit,
   .ToggleP1Collision, .ToggleM0Bit, .ToggleM0Collision, .ToggleM1Bit,
   .ToggleM1Collision, .ToggleBLBit, .ToggleBLCollision, .TogglePFBit,
   .TogglePFCollision, .ToggleBits, .ToggleCollisions, .ToggleFixedColors,
   .ToggleColorLoss, .ToggleJitter, .VidmodeDecrease, .VidmodeIncrease,
   .ToggleFullScreen, .DecreaseOverscan, .IncreaseOverScan, .DecreaseFormat,
   .IncreaseFormat, .TogglePalette, .SoundToggle]

/-- Entries 120-156 of ourEmulActionList. -/
def ourEmulActionList_3 : List EventType :=
  [.VolumeDecrease, .VolumeIncrease, .HandleMouseControl, .ToggleGrabMouse,
   .ToggleSAPortOrder, .ReloadConsole, .Fry, .ToggleContSnapshots,
   .ToggleContSnapshotsFrame, .ToggleTimeMachine, .TimeMachineMode,
   .RewindPause, .Rewind1Menu, .Rewind10Menu, .RewindAllMenu, .UnwindPause,
   .Unwind1Menu, .Unwind10Menu, .UnwindAllMenu, .SaveAllStates,
   .LoadAllStates, .Combo1, .Combo2, .Combo3, .Combo4, .Combo5, .Combo6,
   .Combo7, .Combo8, .Combo9, .Combo10, .Combo11, .Combo12, .Combo13,
   .Combo14, .Combo15, .Combo16]

/-- EventHandler::ourEmulActionList, event fields in declaration order.
The two PNG_SUPPORT-conditional rows are included, matching the
standard desktop build; Combo1 is at index 141 and the list has 157
entries (EMUL_ACTIONLIST_SIZE). -/
def ourEmulActionList : List EventType :=
  ourEmulActionList_0 ++ ourEmulActionList_1 ++ ourEmulActionList_2 ++ ourEmulActionList_3

namespace EventHandler

/-- EventHandlerState (src/emucore/EventHandlerConstants.hxx lines 22-31). -/
inductive State where
  | EMULATION
  | TIMEMACHINE
  | PAUSE
  | LAUNCHER
  | OPTIONSMENU
  | CMDMENU
  | DEBUGGER
  | NONE
  deriving DecidableEq, Repr, Inhabited

/-- The slice of EventHandler state that the embedded operations read or
write: the latched input-event table myEvent (Event.hxx is not in the
excerpt; per the spec it latches an integer value per logical event), the
application state myState, the combo table, the two flags, and boolean
answers of the collaborator queries that the embedded code branches on
(console switches, settings, OSystem state).  Calls into collaborators
(sound, frame buffer, state manager, OSystem) affect none of these fields.
The `sets` field is instrumentation: it records the sequence of
myEvent.set calls, in order, and influences nothing. -/
structure EH where
  myEvent : EventType → Int
  sets : List (EventType × Int)
  myState : State
  myComboTable : Fin 16 → Fin 8 → EventType
  myAllowAllDirectionsFlag : Bool
  myFryingFlag : Bool
  tvColor : Bool
  leftDifficultyA : Bool
  rightDifficultyA : Bool
  minimalUI : Bool
  exitLauncher : Bool
  launcherUsed : Bool
  hasConsole : Bool
  fbInitOk : Bool
  debuggerCanExit : Bool

/-- myEvent.set(event, value): latch `value` for `event` (Event.hxx is not
in the excerpt; modelled from the spec as a table write), recorded in the
instrumentation trace. -/
def eventSet (st : EH) (event : EventType) (value : Int) : EH :=
  { st with
    myEvent := Function.update st.myEvent event value
    sets := st.sets ++ [(event, value)] }

/-- EventHandler::setState (src/emucore/EventHandler.cxx lines 1489-1561)
restricted to the modelled slice: records the new state and erases all
latched event values (the final myEvent.clear(); modelled from the spec:
a state change invalidates old events).  Overlay, sound, text-event and
subsystem notifications are collaborator calls. -/
def setState (st : EH) (s : State) : EH :=
  { st with myState := s, myEvent := fun _ => 0 }

/-- EventHandler::enterMenuMode (lines 1403-1410): setState plus overlay
restack and sound mute (collaborator calls); GUI_SUPPORT is assumed
defined, matching the standard desktop build. -/
def enterMenuMode (st : EH) (s : State) : EH :=
  setState st s

/-- EventHandler::leaveMenuMode (lines 1413-1419). -/
def leaveMenuMode (st : EH) : EH :=
  setState st State.EMULATION

/-- EventHandler::enterDebugMode (lines 1422-1452), DEBUGGER_SUPPORT
assumed defined: refuses when already in the debugger or without a
console; otherwise switches to DEBUGGER and, if the frame buffer cannot
be created, falls back to EMULATION and reports failure. -/
def enterDebugMode (st : EH) : EH × Bool :=
  if st.myState == State.DEBUGGER || !st.hasConsole then (st, false)
  else
    let st1 := setState st State.DEBUGGER
    if !st1.fbInitOk then (setState st1 State.EMULATION, false)
    else (st1, true)

/-- EventHandler::leaveDebugMode (lines 1455-1470). -/
def leaveDebugMode (st : EH) : EH :=
  if st.myState != State.DEBUGGER then st
  else setState st State.EMULATION

/-- EventHandler::enterTimeMachineMenuMode (lines 1473-1487): the extra
rewind state and the wind counter go to collaborators (StateManager,
TimeMachine dialog); the slice effect is entering the TIMEMACHINE menu. -/
def enterTimeMachineMenuMode (st : EH) (numWinds : Nat) (unwind : Bool) : EH :=
  let _ := numWinds
  let _ := unwind
  enterMenuMode st State.TIMEMACHINE

/-- EventHandler::exitEmulation (lines 1565-1574): depending on the
saveonexit setting this dispatches Event::SaveAllStates or
Event::SaveState through handleEvent; both of those handleEvent branches
consist solely of collaborator calls (state manager, frame buffer), so
the modelled slice is unchanged. -/
def exitEmulation (st : EH) : EH :=
  st

/-- The body of the Event::Quit branch of handleEvent (lines 726-736):
saveKeyMapping, saveJoyMapping and OSystem::quit are collaborator calls;
when not in the launcher, exitEmulation runs first.  Shared between the
Quit case itself and the ExitMode case, which invokes
handleEvent(Event::Quit) with the default arguments (value 1, not
repeated). -/
def quitCase (st : EH) (value : Int) (repeated : Bool) : EH :=
  if (value != 0) && !repeated then
    if st.myState != State.LAUNCHER then exitEmulation st else st
  else st

/-- EventHandler::changeStateByEvent (src/emucore/EventHandler.cxx lines
955-1013): returns the updated state and the `handled` flag. -/
def changeStateByEvent (st : EH) (type : EventType) : EH × Bool :=
  match type with
  | .TogglePauseMode =>
      if st.myState == State.EMULATION then (setState st State.PAUSE, true)
      else if st.myState == State.PAUSE then (setState st State.EMULATION, true)
      else (st, false)
  | .OptionsMenuMode =>
      if st.myState == State.EMULATION || st.myState == State.PAUSE then
        (enterMenuMode st State.OPTIONSMENU, true)
      else (st, false)
  | .CmdMenuMode =>
      if st.myState == State.EMULATION || st.myState == State.PAUSE then
        (enterMenuMode st State.CMDMENU, true)
      else if st.myState == State.CMDMENU && !st.minimalUI then
        (leaveMenuMode st, true)
      else (st, false)
  | .TimeMachineMode =>
      if st.myState == State.EMULATION || st.myState == State.PAUSE then
        (enterTimeMachineMenuMode st 0 false, true)
      else if st.myState == State.TIMEMACHINE then
        (leaveMenuMode st, true)
      else (st, false)
  | .DebuggerMode =>
      if st.myState == State.EMULATION || st.myState == State.PAUSE
          || st.myState == State.TIMEMACHINE then
        ((enterDebugMode st).1, true)
      else if st.myState == State.DEBUGGER && st.debuggerCanExit then
        (leaveDebugMode st, true)
      else (st, false)
  | _ => (st, false)

/-- The test `event >= Event::Combo1 && event <= Event::Combo16` from
src/emucore/EventHandler.cxx (lines 1276, 1302): Combo1 .. Combo16 are
declared consecutively in the enumeration (the source relies on this for
the range test and the subtraction below). -/
def isComboEvent (event : EventType) : Bool :=
  match event with
  | .Combo1 | .Combo2 | .Combo3 | .Combo4 | .Combo5 | .Combo6 | .Combo7
  | .Combo8 | .Combo9 | .Combo10 | .Combo11 | .Combo12 | .Combo13
  | .Combo14 | .Combo15 | .Combo16 => true
  | _ => false

/-- The subtraction `event - Event::Combo1` used as combo row index
(lines 761, 1278, 1305); only ever applied to combo events, 0 otherwise. -/
def comboIndexOf (event : EventType) : Fin 16 :=
  match event with
  | .Combo1 => 0
  | .Combo2 => 1
  | .Combo3 => 2
  | .Combo4 => 3
  | .Combo5 => 4
  | .Combo6 => 5
  | .Combo7 => 6
  | .Combo8 => 7
  | .Combo9 => 8
  | .Combo10 => 9
  | .Combo11 => 10
  | .Combo12 => 11
  | .Combo13 => 12
  | .Combo14 => 13
  | .Combo15 => 14
  | .Combo16 => 15
  | _ => 0

/-- Row `k` of myComboTable as the list of its EVENTS_PER_COMBO = 8
entries, in index order (the combo loop runs i over 0 ..< 8). -/
def comboRow (st : EH) (k : Fin 16) : List EventType :=
  [st.myComboTable k 0, st.myComboTable k 1, st.myComboTable k 2,
   st.myComboTable k 3, st.myComboTable k 4, st.myComboTable k 5,
   st.myComboTable k 6, st.myComboTable k 7]

/-- The code after the handleEvent switch (lines 899-901): events whose
case breaks out of the switch, and events with no case at all, are passed
to the emulation core unless the call is a repeat notification. -/
def passToCore (st : EH) (event : EventType) (value : Int) (repeated : Bool) : EH :=
  if !repeated then eventSet st event value else st

end EventHandler

namespace EventHandler

/-- The body of EventHandler::handleEvent (src/emucore/EventHandler.cxx
lines 334-902) on the modelled slice, with the recursive combo-expansion
dispatch abstracted as the parameter `sub` (where the source calls
itself).  The joystick direction cases break out of the switch and so also
run the final pass-to-core write; every case whose body consists solely
of collaborator calls (volume, video mode, TIA toggles, snapshots, state
manager) is grouped into one arm that returns the state unchanged.  The
EMULATION branch of ExitMode reaches the Event::Quit branch (called there
with the default arguments: value 1, not repeated) through the shared
quitCase body rather than by recursion. -/
def handleEventCore (sub : EH → EventType → Int → Bool → Option EH)
    (st : EH) (event : EventType) (value : Int)
    (repeated : Bool) : Option EH :=
  let pressed : Bool := value != 0
  match event with
  | .JoystickZeroUp =>
      let st1 := if !st.myAllowAllDirectionsFlag && pressed then
        eventSet st .JoystickZeroDown 0 else st
      some (passToCore st1 event value repeated)
  | .JoystickZeroDown =>
      let st1 := if !st.myAllowAllDirectionsFlag && pressed then
        eventSet st .JoystickZeroUp 0 else st
      some (passToCore st1 event value repeated)
  | .JoystickZeroLeft =>
      let st1 := if !st.myAllowAllDirectionsFlag && pressed then
        eventSet st .JoystickZeroRight 0 else st
      some (passToCore st1 event value repeated)
  | .JoystickZeroRight =>
      let st1 := if !st.myAllowAllDirectionsFlag && pressed then
        eventSet st .JoystickZeroLeft 0 else st
      some (passToCore st1 event value repeated)
  | .JoystickOneUp =>
      let st1 := if !st.myAllowAllDirectionsFlag && pressed then
        eventSet st .JoystickOneDown 0 else st
      some (passToCore st1 event value repeated)
  | .JoystickOneDown =>
      let st1 := if !st.myAllowAllDirectionsFlag && pressed then
        eventSet st .JoystickOneUp 0 else st
      some (passToCore st1 event value repeated)
  | .JoystickOneLeft =>
      let st1 := if !st.myAllowAllDirectionsFlag && pressed then
        eventSet st .JoystickOneRight 0 else st
      some (passToCore st1 event value repeated)
  | .JoystickOneRight =>
      let st1 := if !st.myAllowAllDirectionsFlag && pressed then
        eventSet st .JoystickOneLeft 0 else st
      some (passToCore st1 event value repeated)
  | .Fry =>
      some (if !repeated then { st with myFryingFlag := pressed } else st)
  | .ReloadConsole | .VolumeDecrease | .VolumeIncrease | .SoundToggle
  | .VidmodeDecrease | .VidmodeIncrease | .ToggleFullScreen
  | .DecreaseOverscan | .IncreaseOverScan | .VidmodeStd | .VidmodeRGB
  | .VidmodeSVideo | .VidModeComposite | .VidModeBad | .VidModeCustom
  | .ScanlinesDecrease | .ScanlinesIncrease | .PreviousAttribute
  | .NextAttribute | .DecreaseAttribute | .IncreaseAttribute
  | .DecreasePhosphor | .IncreasePhosphor | .TogglePhosphor
  | .ToggleColorLoss | .TogglePalette | .ToggleJitter | .ToggleFrameStats
  | .ToggleTimeMachine | .ToggleContSnapshots | .ToggleContSnapshotsFrame
  | .HandleMouseControl | .ToggleSAPortOrder | .DecreaseFormat
  | .IncreaseFormat | .ToggleGrabMouse | .ToggleP0Collision | .ToggleP0Bit
  | .ToggleP1Collision | .ToggleP1Bit | .ToggleM0Collision | .ToggleM0Bit
  | .ToggleM1Collision | .ToggleM1Bit | .ToggleBLCollision | .ToggleBLBit
  | .TogglePFCollision | .TogglePFBit | .ToggleFixedColors
  | .ToggleCollisions | .ToggleBits | .SaveState | .SaveAllStates
  | .ChangeState | .ToggleAutoSlot | .LoadState | .LoadAllStates
  | .TakeSnapshot =>
      some st
  | .RewindPause | .UnwindPause =>
      some (if st.myState == State.EMULATION then setState st State.PAUSE else st)
  | .Rewind1Menu =>
      some (if pressed then enterTimeMachineMenuMode st 1 false else st)
  | .Rewind10Menu =>
      some (if pressed then enterTimeMachineMenuMode st 10 false else st)
  | .RewindAllMenu =>
      some (if pressed then enterTimeMachineMenuMode st 1000 false else st)
  | .Unwind1Menu =>
      some (if pressed then enterTimeMachineMenuMode st 1 true else st)
  | .Unwind10Menu =>
      some (if pressed then enterTimeMachineMenuMode st 10 true else st)
  | .UnwindAllMenu =>
      some (if pressed then enterTimeMachineMenuMode st 1000 true else st)
  | .ExitMode =>
      match st.myState with
      | State.PAUSE =>
          some (if pressed && !repeated then
                  (changeStateByEvent st .TogglePauseMode).1 else st)
      | State.CMDMENU =>
          some (if pressed && !repeated then
                  (changeStateByEvent st .CmdMenuMode).1 else st)
      | State.TIMEMACHINE =>
          some (if pressed && !repeated then
                  (changeStateByEvent st .TimeMachineMode).1 else st)
      | State.EMULATION =>
          if pressed && !repeated then
            let st1 := exitEmulation st
            if st1.exitLauncher || st1.launcherUsed then
              some st1
            else
              some (quitCase st1 1 false)
          else some st
      | _ => some st
  | .Quit =>
      some (quitCase st value repeated)
  | .StartPauseMode =>
      some (if pressed && !repeated && st.myState == State.EMULATION then
              setState st State.PAUSE else st)
  | .Combo1 | .Combo2 | .Combo3 | .Combo4 | .Combo5 | .Combo6 | .Combo7
  | .Combo8 | .Combo9 | .Combo10 | .Combo11 | .Combo12 | .Combo13 | .Combo14
  | .Combo15 | .Combo16 =>
      (comboRow st (comboIndexOf event)).foldl
        (fun acc e =>
          acc.bind fun s =>
            if e != EventType.NoType then
              sub s e (if pressed then 1 else 0) repeated
            else some s)
        (some st)
  | .ConsoleColor =>
      some (if pressed && !repeated then
              eventSet (eventSet st .ConsoleBlackWhite 0) .ConsoleColor 1
            else st)
  | .ConsoleBlackWhite =>
      some (if pressed && !repeated then
              eventSet (eventSet st .ConsoleBlackWhite 1) .ConsoleColor 0
            else st)
  | .ConsoleColorToggle =>
      some (if pressed && !repeated then
              if st.tvColor then
                eventSet (eventSet st .ConsoleBlackWhite 1) .ConsoleColor 0
              else
                eventSet (eventSet st .ConsoleBlackWhite 0) .ConsoleColor 1
            else st)
  | .Console7800Pause =>
      some (if pressed && !repeated then
              eventSet (eventSet st .ConsoleBlackWhite 0) .ConsoleColor 0
            else st)
  | .ConsoleLeftDiffA =>
      some (if pressed && !repeated then
              eventSet (eventSet st .ConsoleLeftDiffA 1) .ConsoleLeftDiffB 0
            else st)
  | .ConsoleLeftDiffB =>
      some (if pressed && !repeated then
              eventSet (eventSet st .ConsoleLeftDiffA 0) .ConsoleLeftDiffB 1
            else st)
  | .ConsoleLeftDiffToggle =>
      some (if pressed && !repeated then
              if st.leftDifficultyA then
                eventSet (eventSet st .ConsoleLeftDiffA 0) .ConsoleLeftDiffB 1
              else
                eventSet (eventSet st .ConsoleLeftDiffA 1) .ConsoleLeftDiffB 0
            else st)
  | .ConsoleRightDiffA =>
      some (if pressed && !repeated then
              eventSet (eventSet st .ConsoleRightDiffA 1) .ConsoleRightDiffB 0
            else st)
  | .ConsoleRightDiffB =>
      some (if pressed && !repeated then
              eventSet (eventSet st .ConsoleRightDiffA 0) .ConsoleRightDiffB 1
            else st)
  | .ConsoleRightDiffToggle =>
      some (if pressed && !repeated then
              if st.rightDifficultyA then
                eventSet (eventSet st .ConsoleRightDiffA 0) .ConsoleRightDiffB 1
              else
                eventSet (eventSet st .ConsoleRightDiffA 1) .ConsoleRightDiffB 0
            else st)
  | .NoType =>
      some st
  | _ =>
      some (passToCore st event value repeated)


/-- EventHandler::handleEvent itself: the fixpoint of handleEventCore up
to recursion depth `fuel`.  The source recursion (the combo case calling
handleEvent for each sub-action) is unbounded when a combo table entry is
itself a combo event, so the embedding runs it on a depth budget: `none`
means the budget was exhausted, i.e. the source would keep recursing
past that depth. -/
def handleEvent (fuel : Nat) (st : EH) (event : EventType) (value : Int)
    (repeated : Bool) : Option EH :=
  handleEventCore
    (fun s e v r =>
      match fuel with
      | 0 => none
      | f + 1 => handleEvent f s e v r)
    st event value repeated

/-- The sub-dispatch handleEvent passes to handleEventCore at a given
depth budget, as a named function (so that proofs can rewrite
handleEvent to handleEventCore applied to it without looping). -/
def handleEventSub (fuel : Nat) : EH → EventType → Int → Bool → Option EH :=
  fun s e v r =>
    match fuel with
    | 0 => none
    | f + 1 => handleEvent f s e v r

end EventHandler

namespace EventHandler

/-- The events whose handleEvent case returns from the switch without
reaching the final pass-to-core write (every case of the switch except the
eight joystick-direction cases, which break instead): the special events
the dispatcher intercepts and handles itself.  Matches the case structure
of handleEvent literally. -/
def intercepted (event : EventType) : Bool :=
  match event with
  | .Fry
  | .ReloadConsole | .VolumeDecrease | .VolumeIncrease | .SoundToggle
  | .VidmodeDecrease | .VidmodeIncrease | .ToggleFullScreen
  | .DecreaseOverscan | .IncreaseOverScan | .VidmodeStd | .VidmodeRGB
  | .VidmodeSVideo | .VidModeComposite | .VidModeBad | .VidModeCustom
  | .ScanlinesDecrease | .ScanlinesIncrease | .PreviousAttribute
  | .NextAttribute | .DecreaseAttribute | .IncreaseAttribute
  | .DecreasePhosphor | .IncreasePhosphor | .TogglePhosphor
  | .ToggleColorLoss | .TogglePalette | .ToggleJitter | .ToggleFrameStats
  | .ToggleTimeMachine | .ToggleContSnapshots | .ToggleContSnapshotsFrame
  | .HandleMouseControl | .ToggleSAPortOrder | .DecreaseFormat
  | .IncreaseFormat | .ToggleGrabMouse | .ToggleP0Collision | .ToggleP0Bit
  | .ToggleP1Collision | .ToggleP1Bit | .ToggleM0Collision | .ToggleM0Bit
  | .ToggleM1Collision | .ToggleM1Bit | .ToggleBLCollision | .ToggleBLBit
  | .TogglePFCollision | .TogglePFBit | .ToggleFixedColors
  | .ToggleCollisions | .ToggleBits | .SaveState | .SaveAllStates
  | .ChangeState | .ToggleAutoSlot | .LoadState | .LoadAllStates
  | .RewindPause | .UnwindPause | .Rewind1Menu | .Rewind10Menu
  | .RewindAllMenu | .Unwind1Menu | .Unwind10Menu | .UnwindAllMenu
  | .TakeSnapshot | .ExitMode | .Quit | .StartPauseMode
  | .Combo1 | .Combo2 | .Combo3 | .Combo4 | .Combo5 | .Combo6 | .Combo7
  | .Combo8 | .Combo9 | .Combo10 | .Combo11 | .Combo12 | .Combo13
  | .Combo14 | .Combo15 | .Combo16
  | .ConsoleColor | .ConsoleBlackWhite | .ConsoleColorToggle
  | .Console7800Pause | .ConsoleLeftDiffA | .ConsoleLeftDiffB
  | .ConsoleLeftDiffToggle | .ConsoleRightDiffA | .ConsoleRightDiffB
  | .ConsoleRightDiffToggle
  | .NoType => true
  | _ => false

end EventHandler

namespace EventHandler

/-- The numeric value of the leading digit run of a character list
(used by atoi): 0 when there are no leading digits. -/
def digitsPrefixVal (cs : List Char) : Nat :=
  (cs.takeWhile Char.isDigit).foldl (fun acc c => acc * 10 + (c.toNat - 48)) 0

/-- The C atoi function, as applied by setComboMap and
setComboListForEvent to their tokens: skip leading whitespace, accept an
optional sign, convert the longest leading digit run; 0 when there are no
digits. -/
def atoi (s : String) : Int :=
  let cs := s.toList.dropWhile Char.isWhitespace
  match cs with
  | '-' :: rest => - Int.ofNat (digitsPrefixVal rest)
  | '+' :: rest => Int.ofNat (digitsPrefixVal rest)
  | _ => Int.ofNat (digitsPrefixVal cs)

/-- std::replace over the characters of a string, as used by setComboMap
on ':' and ','. -/
def replaceChar (s : String) (oldc newc : Char) : String :=
  s.map (fun c => if c = oldc then newc else c)

/-- The token sequence an istringstream yields under repeated `buf >> key`:
maximal whitespace-separated runs. -/
def streamTokens (s : String) : List String :=
  (s.split (fun c => c.isWhitespace)).filter (fun t => t ≠ "")

/-- Modelled from the spec: Event::VERSION, the current event-table format
version tag, lives in Event.hxx, outside the excerpt; the spec fixes only
that the persisted combo string carries such a tag and that any mismatch
resets the table.  The concrete value is irrelevant to the theorems. -/
def Event.VERSION : Int := 1

/-- COMBO_SIZE = 16, the combo slot count (declared in EventHandler.hxx /
Event.hxx outside the excerpt; value fixed by the spec, by the claim and
by the 16 Combo events). -/
def COMBO_SIZE : Int := 16

/-- Modelled from the spec: the C++ cast Event::Type(n) of a persisted
integer to the event enumeration, used by the setComboMap fill loop.  The
numeric layout of the enumeration is not in the excerpt, so the cast is
modelled injectively through the residual constructor, with 0 mapped to
the NoType sentinel; the theorems about setComboMap do not depend on this
layout choice. -/
def eventTypeOfInt (n : Int) : EventType :=
  if n = 0 then EventType.NoType else EventType.other n

/-- EventHandler::setComboMap (src/emucore/EventHandler.cxx lines
1059-1108) as a function of the persisted combomap string, the persisted
event_ver value and the previous combo table.  A freshly constructed
istringstream is always good(), so the `!buf.good()` disjunct of the erase
condition never fires and the version comparison decides it alone.  When
the count token parses to COMBO_SIZE, row i is filled from sub-token j of
group token i for as long as tokens exist (`while(buf >> key && count <
...)`), leaving the remaining entries of the previous table in place; the
final saveComboMapping() only persists the table through Settings. -/
def setComboMap (list : String) (version : Int)
    (old : Fin 16 → Fin 8 → EventType) : Fin 16 → Fin 8 → EventType :=
  let erased : Fin 16 → Fin 8 → EventType := fun _ _ => EventType.NoType
  if version ≠ Event.VERSION then erased
  else
    match streamTokens (replaceChar list ':' ' ') with
    | [] => erased
    | key :: rest =>
      if atoi key = COMBO_SIZE then
        fun i j =>
          match rest[i.val]? with
          | none => old i j
          | some t =>
            match (streamTokens (replaceChar t ',' ' '))[j.val]? with
            | none => old i j
            | some e => eventTypeOfInt (atoi e)
      else erased

/-- EMUL_ACTIONLIST_SIZE: the length of ourEmulActionList (the constant is
declared in EventHandler.hxx outside the excerpt, but the array definition
in the source fixes it to the initializer length, 157). -/
def EMUL_ACTIONLIST_SIZE : Nat := ourEmulActionList.length

/-- EventHandler::setComboListForEvent (src/emucore/EventHandler.cxx lines
1300-1316): for a combo event, each of the 8 slot entries is set from the
action-list index parsed out of the corresponding string (the source
asserts events.size() == 8; shorter lists are modelled by the empty-string
default, which parses to index 0 only through atoi of an empty string,
i.e. in-range), NoType for an out-of-range index; for a non-combo event
nothing changes.  The final saveComboMapping() only persists the table. -/
def setComboListForEvent (event : EventType) (events : List String)
    (old : Fin 16 → Fin 8 → EventType) : Fin 16 → Fin 8 → EventType :=
  if isComboEvent event then
    fun k j =>
      if k = comboIndexOf event then
        let idx := atoi (events.getD j.val "")
        if 0 ≤ idx ∧ idx < (EMUL_ACTIONLIST_SIZE : Int) then
          ourEmulActionList.getD idx.toNat EventType.NoType
        else EventType.NoType
      else old k j
  else old

end EventHandler

namespace PhysicalJoystickHandler

/-- JoyAxis, JoyDir and JoyHat (src/emucore/EventHandlerConstants.hxx
lines 41-64) are int-backed C++ enum classes and casts such as
JoyAxis(axis) are identities on the underlying int, so their values are
modelled directly as Int.  JOY_CTRL_NONE = -1. -/
def JOY_CTRL_NONE : Int := -1

/-- JoyAxis::NONE = JOY_CTRL_NONE. -/
def JoyAxis.NONE : Int := JOY_CTRL_NONE

/-- JoyDir::NEG = -1. -/
def JoyDir.NEG : Int := -1

/-- JoyDir::POS = 1. -/
def JoyDir.POS : Int := 1

/-- JoyDir::NONE = 0. -/
def JoyDir.NONE : Int := 0

/-- JoyHat::CENTER = 4. -/
def JoyHat.CENTER : Int := 4

/-- JoyMap::JoyMapping (src/common/JoyMap.hxx lines 34-78): mode is the
int-backed EventMode enum; equality (operator==, lines 68-77) is
field-wise and coincides with derived equality. -/
structure JoyMapping where
  mode : Int
  button : Int
  axis : Int
  adir : Int
  hat : Int
  hdir : Int
  deriving DecidableEq, Repr

/-- The JoyMap backing store std::unordered_map<JoyMapping, Event::Type>,
modelled as an association list with the JoyMapping equality. -/
def JoyMap := List (JoyMapping × EventType)

/-- Modelled from the spec: JoyMap::get lives in JoyMap.cxx, outside the
excerpt; per spec section 4.1, lookup returns the bound action and a
sentinel no-action value on a miss. -/
def JoyMap.get (m : JoyMap) (mapping : JoyMapping) : EventType :=
  match m.find? (fun p => p.1 == mapping) with
  | some p => p.2
  | none => EventType.NoType

/-- Modelled from the spec: PhysicalJoystick (PhysicalJoystick.hxx is
outside the excerpt) carries a per-device binding table; only the joyMap
member is read by the embedded lookups. -/
structure PhysicalJoystick where
  joyMap : JoyMap

/-- The StickList std::map<int, PhysicalJoystickPtr> of currently
connected devices, modelled as an association list from int ids. -/
def StickList := List (Int × PhysicalJoystick)

/-- PhysicalJoystickHandler::joy (src/common/PJoystickHandler.hxx lines
125-128): the joystick for the given id, or nullptr (none) when the id is
not a currently connected device. -/
def joy (sticks : StickList) (id : Int) : Option PhysicalJoystick :=
  match sticks.find? (fun p => p.1 == id) with
  | some p => some p.2
  | none => none

/-- PhysicalJoystickHandler::convertAxisValue (src/common/PJoystickHandler.hxx
lines 136-138). -/
def convertAxisValue (value : Int) : Int :=
  if value = JoyDir.NONE then JoyDir.NONE
  else if value > 0 then JoyDir.POS else JoyDir.NEG

/-- PhysicalJoystickHandler::eventForAxis (src/common/PJoystickHandler.hxx
lines 93-96).  The source unconditionally dereferences the
PhysicalJoystickPtr returned by joy(stick); when that pointer is null the
dereference does not produce a value (undefined behaviour, a crash),
modelled as none; a defined lookup result e is modelled as some e.  The
4-argument JoyMap::get overload builds a JoyMapping with hat
JOY_CTRL_NONE and hdir JoyHat::CENTER (src/common/JoyMap.hxx lines
57-61). -/
def eventForAxis (sticks : StickList) (mode : Int) (stick : Int)
    (axis : Int) (value : Int) (button : Int) : Option EventType :=
  (joy sticks stick).map fun j =>
    j.joyMap.get
      ⟨mode, button, axis, convertAxisValue value, JOY_CTRL_NONE, JoyHat.CENTER⟩

/-- PhysicalJoystickHandler::eventForButton (src/common/PJoystickHandler.hxx
lines 97-100), with the same unchecked dereference; the 2-argument
JoyMap::get defaults axis to JoyAxis::NONE and adir to JoyDir::NONE
(src/common/JoyMap.hxx lines 102-103). -/
def eventForButton (sticks : StickList) (mode : Int) (stick : Int)
    (button : Int) : Option EventType :=
  (joy sticks stick).map fun j =>
    j.joyMap.get
      ⟨mode, button, JoyAxis.NONE, JoyDir.NONE, JOY_CTRL_NONE, JoyHat.CENTER⟩

/-- PhysicalJoystickHandler::eventForHat (src/common/PJoystickHandler.hxx
lines 101-104), with the same unchecked dereference; the hat JoyMap::get
overload sets axis JoyAxis::NONE and adir JoyDir::NONE
(src/common/JoyMap.hxx lines 62-66). -/
def eventForHat (sticks : StickList) (mode : Int) (stick : Int)
    (hat : Int) (hatDir : Int) (button : Int) : Option EventType :=
  (joy sticks stick).map fun j =>
    j.joyMap.get
      ⟨mode, button, JoyAxis.NONE, JoyDir.NONE, hat, hatDir⟩

end PhysicalJoystickHandler

namespace EventHandler

/-- The eight (direction, opposite direction) pairs of the
opposite-direction suppression cases of handleEvent
(src/emucore/EventHandler.cxx lines 344-382), in source order. -/
def dirPairs : List (EventType × EventType) :=
  [(.JoystickZeroUp, .JoystickZeroDown),
   (.JoystickZeroDown, .JoystickZeroUp),
   (.JoystickZeroLeft, .JoystickZeroRight),
   (.JoystickZeroRight, .JoystickZeroLeft),
   (.JoystickOneUp, .JoystickOneDown),
   (.JoystickOneDown, .JoystickOneUp),
   (.JoystickOneLeft, .JoystickOneRight),
   (.JoystickOneRight, .JoystickOneLeft)]

/-- A baseline dispatcher state for concrete instantiations: empty event
table, empty combo table, emulation mode, all flags and collaborator
answers false. -/
def baseEH : EH where
  myEvent := fun _ => 0
  sets := []
  myState := State.EMULATION
  myComboTable := fun _ _ => EventType.NoType
  myAllowAllDirectionsFlag := false
  myFryingFlag := false
  tvColor := false
  leftDifficultyA := false
  rightDifficultyA := false
  minimalUI := false
  exitLauncher := false
  launcherUsed := false
  hasConsole := false
  fbInitOk := false
  debuggerCanExit := false

/-- The combo table of the C6 scenario: slot 1 (row 0) holds
[ConsoleSelect, NoType, ConsoleReset, NoType, NoType, NoType, NoType,
NoType]; ConsoleSelect and ConsoleReset are non-combo actions. -/
def c6Table : Fin 16 → Fin 8 → EventType := fun k j =>
  if k = 0 then
    if j = 0 then EventType.ConsoleSelect
    else if j = 2 then EventType.ConsoleReset
    else EventType.NoType
  else EventType.NoType

end EventHandler

namespace ControllerDetector

/-- A concrete ROM image for instantiating the SaveKey-priority theorem:
the first SaveKey I2C handshake signature, followed by the first
right-port paddle-access signature, followed by one padding byte. -/
def c4Image : List Nat :=
  [0xa9, 0x08, 0x8d, 0x80, 0x02, 0xa9, 0x0c, 0x8d, 0x81,
   0x24, 0x0a, 0x10,
   0x00]

end ControllerDetector

/-!
Theorems settling the claims.  Helper lemmas carry no claim names and are
shared; each claim is settled by the single theorem named after it.
-/

/-- C2: the device-specific lookups eventForAxis, eventForButton and
eventForHat, called with a stick id that has no currently connected
device, do not return the Event::NoType sentinel: joy(stick) yields a
null pointer and each of the three functions dereferences it with no
nullable-device check, so the call crashes (modelled as none) instead of
producing a value.  Evaluated at the failing input: no devices connected,
stick id 0, emulation mode (0), axis/button/hat 0, axis value 1, hat
direction 0. -/
theorem C2_disconnected_lookup_crashes :
    PhysicalJoystickHandler.eventForButton [] 0 0 0 = none
    ∧ PhysicalJoystickHandler.eventForAxis [] 0 0 0 1 0 = none
    ∧ PhysicalJoystickHandler.eventForHat [] 0 0 0 0 0 = none
    ∧ PhysicalJoystickHandler.eventForButton [] 0 0 0 ≠ some EventType.NoType :=
  ⟨rfl, rfl, rfl, by decide⟩

/-- C4: on the right port, a ROM image on which the SaveKey I2C handshake
check succeeds is detected as SAVEKEY even when the paddle-access check
would also succeed, because the save-device handshake check runs first in
the autodetectPort cascade. -/
theorem C4_savekey_beats_paddles (image : List Nat)
    (h1 : ControllerDetector.isProbablySaveKey image .Right = true)
    (_h2 : ControllerDetector.usesPaddle image .Right = true) :
    ControllerDetector.autodetectPort image .Right = "SAVEKEY" := by
  unfold ControllerDetector.autodetectPort
  rw [h1]
  simp

/-- C4 witness: a concrete image containing both a SaveKey handshake
signature and a right-port paddle signature resolves to SAVEKEY. -/
theorem C4_witness :
    ControllerDetector.isProbablySaveKey ControllerDetector.c4Image .Right = true
    ∧ ControllerDetector.usesPaddle ControllerDetector.c4Image .Right = true
    ∧ ControllerDetector.autodetectPort ControllerDetector.c4Image .Right = "SAVEKEY" :=
  ⟨by decide, by decide,
    C4_savekey_beats_paddles ControllerDetector.c4Image (by decide) (by decide)⟩

/-- Occurrence of `s` at offset `i` of `l`, stated two ways: as a prefix of
the dropped list and as pointwise byte agreement (the form the inner
matching loop of searchForBytes computes). -/
theorem prefix_drop_iff_getD (l s : List Nat) (i : Nat) (h : i + s.length ≤ l.length) :
    s <+: List.drop i l ↔ ∀ j, j < s.length → l.getD (i + j) 0 = s.getD j 0 := by
  induction s generalizing i with
  | nil => simp
  | cons a as ih =>
    have hi : i < l.length := by simp at h; omega
    rw [List.drop_eq_getElem_cons hi, List.cons_prefix_cons]
    have hnext : (i + 1) + as.length ≤ l.length := by simp at h; omega
    rw [ih (i + 1) hnext]
    constructor
    · rintro ⟨ha, hrest⟩
      intro j hj
      cases j with
      | zero =>
        simpa [List.getD_eq_getElem?_getD, List.getElem?_eq_getElem hi] using ha.symm
      | succ j2 =>
        have := hrest j2 (by simpa using hj)
        simpa [Nat.add_assoc, Nat.add_comm 1 j2] using this
    · intro hall
      refine ⟨?_, ?_⟩
      · have := hall 0 (by simp)
        simpa [List.getD_eq_getElem?_getD, List.getElem?_eq_getElem hi] using this.symm
      · intro j hj
        have := hall (j + 1) (by simp; omega)
        simpa [Nat.add_assoc, Nat.add_comm 1 j] using this

/-- C3 counterexample: the signature 0xa9 occurs in the one-byte image
0xa9 as a contiguous substring (the whole image), yet searchForBytes
reports false, because its outer loop runs i over
0 ..< imagesize - sigsize and never tests the final alignment. -/
theorem C3_counterexample :
    ControllerDetector.searchForBytes [0xa9] [0xa9] = false
    ∧ ∃ pre post : List Nat, pre ++ [0xa9] ++ post = [0xa9] :=
  ⟨by decide, [], [], rfl⟩

/-- C3 amended: searchForBytes returns true if and only if the signature
occurs as a contiguous byte-for-byte substring at some offset i with
i + sigsize strictly below imagesize; an occurrence whose last byte is the
last byte of the image is at offset imagesize - sigsize and is never
tested. -/
theorem C3_search_strict_occurrence (image signature : List Nat) :
    ControllerDetector.searchForBytes image signature = true ↔
      ∃ i, i + signature.length < image.length
        ∧ signature <+: List.drop i image := by
  unfold ControllerDetector.searchForBytes
  by_cases h : image.length ≥ signature.length
  · simp only [h, if_true, List.any_eq_true, List.mem_range, List.all_eq_true,
      beq_iff_eq]
    constructor
    · rintro ⟨i, hi, hall⟩
      have hlt : i + signature.length < image.length := by omega
      exact ⟨i, hlt, (prefix_drop_iff_getD image signature i (by omega)).2
        (fun j hj => hall j (by simpa using hj))⟩
    · rintro ⟨i, hi, hpre⟩
      refine ⟨i, by omega, ?_⟩
      intro j hj
      exact (prefix_drop_iff_getD image signature i (by omega)).1 hpre j (by simpa using hj)
  · simp only [h, if_false]
    constructor
    · intro hf; exact absurd hf (by simp)
    · rintro ⟨i, hi, hpre⟩
      omega

/-- A natural number is nonzero exactly when some bit is set. -/
theorem ne_zero_iff_exists_testBit (n : Nat) : n ≠ 0 ↔ ∃ i, n.testBit i = true := by
  constructor
  · intro h
    by_contra hno
    push_neg at hno
    exact h (Nat.eq_of_testBit_eq (fun i => by
      simp [Nat.zero_testBit]
      exact Bool.eq_false_iff.mpr (fun hb => by simp [hb] at hno; exact absurd hb (by simpa using hno i))))
  · rintro ⟨i, hi⟩ rfl
    simp [Nat.zero_testBit] at hi

theorem and3_ne_zero_iff (a b M : Nat) :
    a &&& b &&& M ≠ 0 ↔ ∃ i, a.testBit i ∧ b.testBit i ∧ M.testBit i := by
  rw [ne_zero_iff_exists_testBit]
  simp [Nat.testBit_and, and_assoc]

theorem or_and_ne_zero_iff (a b M : Nat) :
    (a ||| b) &&& M ≠ 0 ↔
      (∃ i, a.testBit i ∧ M.testBit i) ∨ ∃ i, b.testBit i ∧ M.testBit i := by
  rw [ne_zero_iff_exists_testBit]
  simp [Nat.testBit_and, Nat.testBit_or, or_and_right, exists_or]

theorem guard_eq_true_iff (c d : Prop) [Decidable c] [Decidable d] :
    ((if c then decide d else true) = true) ↔ (c → d) := by
  by_cases hc : c <;> simp [hc]

namespace KeyMap

theorem beq_unfolded (m1 m2 : Mapping) :
    Mapping.beq m1 m2 = true ↔
      ((((m1.key = m2.key ∧ m1.mode = m2.mode)
        ∧ ((m1.mod ||| m2.mod) &&& KBDM_SHIFT ≠ 0 → m1.mod &&& m2.mod &&& KBDM_SHIFT ≠ 0))
        ∧ ((m1.mod ||| m2.mod) &&& KBDM_CTRL ≠ 0 → m1.mod &&& m2.mod &&& KBDM_CTRL ≠ 0))
        ∧ ((m1.mod ||| m2.mod) &&& KBDM_ALT ≠ 0 → m1.mod &&& m2.mod &&& KBDM_ALT ≠ 0))
        ∧ ((m1.mod ||| m2.mod) &&& KBDM_GUI ≠ 0 → m1.mod &&& m2.mod &&& KBDM_GUI ≠ 0) := by
  unfold Mapping.beq
  simp only [Bool.and_eq_true, beq_iff_eq, guard_eq_true_iff]

end KeyMap

namespace KeyMap

theorem category_cond_iff (a b M : Nat) :
    ((a ||| b) &&& M ≠ 0 → a &&& b &&& M ≠ 0) ↔
      (((∃ i, a.testBit i ∧ M.testBit i) ∨ ∃ i, b.testBit i ∧ M.testBit i) →
        ∃ i, a.testBit i ∧ b.testBit i ∧ M.testBit i) := by
  rw [or_and_ne_zero_iff, and3_ne_zero_iff]

/-- C1 amended: Mapping equality holds if and only if key and mode agree
and, for each of the four modifier categories (the Shift, Ctrl, Alt and
GUI masks), whenever either mapping has some bit of that category set, the
two mappings share at least one common set bit of that category; the
original per-individual-bit reading of the claim is refuted by
C1_counterexample. -/
theorem C1_amended (m1 m2 : Mapping) :
    Mapping.beq m1 m2 = true ↔
      m1.key = m2.key ∧ m1.mode = m2.mode ∧
      ∀ M ∈ [KBDM_SHIFT, KBDM_CTRL, KBDM_ALT, KBDM_GUI],
        (((∃ b, m1.mod.testBit b ∧ M.testBit b) ∨ ∃ b, m2.mod.testBit b ∧ M.testBit b) →
          ∃ b, m1.mod.testBit b ∧ m2.mod.testBit b ∧ M.testBit b) := by
  rw [beq_unfolded]
  constructor
  · rintro ⟨⟨⟨⟨⟨hk, hm⟩, hs⟩, hc⟩, ha⟩, hg⟩
    refine ⟨hk, hm, ?_⟩
    intro M hM
    simp only [List.mem_cons, List.not_mem_nil, or_false] at hM
    rcases hM with rfl | rfl | rfl | rfl
    · exact (category_cond_iff _ _ _).1 hs
    · exact (category_cond_iff _ _ _).1 hc
    · exact (category_cond_iff _ _ _).1 ha
    · exact (category_cond_iff _ _ _).1 hg
  · rintro ⟨hk, hm, hall⟩
    exact ⟨⟨⟨⟨⟨hk, hm⟩,
      (category_cond_iff _ _ _).2 (hall _ (by simp))⟩,
      (category_cond_iff _ _ _).2 (hall _ (by simp))⟩,
      (category_cond_iff _ _ _).2 (hall _ (by simp))⟩,
      (category_cond_iff _ _ _).2 (hall _ (by simp))⟩

/-- C1 counterexample: a mapping holding only the left Shift bit and one
holding both Shift bits compare equal under Mapping::operator== although
the right Shift bit is set in one and absent from the other, so equality
is not per modifier bit as claimed. -/
theorem C1_counterexample :
    Mapping.beq ⟨0, 0, KBDM_LSHIFT⟩ ⟨0, 0, KBDM_SHIFT⟩ = true
    ∧ ¬ specPerBitEq ⟨0, 0, KBDM_LSHIFT⟩ ⟨0, 0, KBDM_SHIFT⟩ := by
  constructor
  · decide
  · decide

theorem presence_iff_of_cond (a b M : Nat)
    (h : (a ||| b) &&& M ≠ 0 → a &&& b &&& M ≠ 0) :
    ((a &&& M ≠ 0) ↔ (b &&& M ≠ 0)) := by
  have bridge : ∀ x y : Nat, x &&& y ≠ 0 ↔ ∃ i, x.testBit i ∧ y.testBit i := by
    intro x y
    rw [ne_zero_iff_exists_testBit]
    simp [Nat.testBit_and]
  rw [category_cond_iff] at h
  rw [bridge, bridge]
  constructor
  · rintro ⟨i, hi, hMi⟩
    obtain ⟨j, _, hj2, hjM⟩ := h (Or.inl ⟨i, hi, hMi⟩)
    exact ⟨j, hj2, hjM⟩
  · rintro ⟨i, hi, hMi⟩
    obtain ⟨j, hj1, _, hjM⟩ := h (Or.inr ⟨i, hi, hMi⟩)
    exact ⟨j, hj1, hjM⟩


/-- C10: mappings equal under Mapping::operator== receive equal KeyHash
values: the equality forces equal keys and modes and equal per-category
modifier presence, and the hash depends on the fields only through those.
So the unordered_map consistency invariant (equal keys hash equally)
holds. -/
theorem C10_hash_consistent (m1 m2 : Mapping) (h : Mapping.beq m1 m2 = true) :
    KeyHash m1 = KeyHash m2 := by
  rw [beq_unfolded] at h
  obtain ⟨⟨⟨⟨⟨hk, hm⟩, hs⟩, hc⟩, ha⟩, hg⟩ := h
  have es := presence_iff_of_cond _ _ _ hs
  have ec := presence_iff_of_cond _ _ _ hc
  have ea := presence_iff_of_cond _ _ _ ha
  have eg := presence_iff_of_cond _ _ _ hg
  have e1 : (if (m1.mod &&& KBDM_SHIFT) ≠ 0 then (1:Nat) else 0)
      = (if (m2.mod &&& KBDM_SHIFT) ≠ 0 then (1:Nat) else 0) := by
    by_cases h1 : m1.mod &&& KBDM_SHIFT ≠ 0
    · rw [if_pos h1, if_pos (es.mp h1)]
    · rw [if_neg h1, if_neg (fun h2 => h1 (es.mpr h2))]
  have e2 : (if (m1.mod &&& KBDM_ALT) ≠ 0 then (1:Nat) else 0)
      = (if (m2.mod &&& KBDM_ALT) ≠ 0 then (1:Nat) else 0) := by
    by_cases h1 : m1.mod &&& KBDM_ALT ≠ 0
    · rw [if_pos h1, if_pos (ea.mp h1)]
    · rw [if_neg h1, if_neg (fun h2 => h1 (ea.mpr h2))]
  have e3 : (if (m1.mod &&& KBDM_GUI) ≠ 0 then (1:Nat) else 0)
      = (if (m2.mod &&& KBDM_GUI) ≠ 0 then (1:Nat) else 0) := by
    by_cases h1 : m1.mod &&& KBDM_GUI ≠ 0
    · rw [if_pos h1, if_pos (eg.mp h1)]
    · rw [if_neg h1, if_neg (fun h2 => h1 (eg.mpr h2))]
  have e4 : (if (m1.mod &&& KBDM_CTRL) ≠ 0 then (1:Nat) else 0)
      = (if (m2.mod &&& KBDM_CTRL) ≠ 0 then (1:Nat) else 0) := by
    by_cases h1 : m1.mod &&& KBDM_CTRL ≠ 0
    · rw [if_pos h1, if_pos (ec.mp h1)]
    · rw [if_neg h1, if_neg (fun h2 => h1 (ec.mpr h2))]
  unfold KeyHash
  rw [hk, hm, e1, e2, e3, e4]


/-- C10 witness: two concretely equal mappings (left Shift only versus
both Shift bits) have equal hash values. -/
theorem C10_witness :
    Mapping.beq ⟨0, 0, KBDM_LSHIFT⟩ ⟨0, 0, KBDM_SHIFT⟩ = true
    ∧ KeyHash ⟨0, 0, KBDM_LSHIFT⟩ = KeyHash ⟨0, 0, KBDM_SHIFT⟩ :=
  ⟨by decide, C10_hash_consistent ⟨0, 0, KBDM_LSHIFT⟩ ⟨0, 0, KBDM_SHIFT⟩ (by decide)⟩

end KeyMap

/-- Binding an Option into some is the identity. -/
theorem option_bind_some_id {α : Type} (x : Option α) : x.bind some = x := by
  cases x <;> rfl

namespace EventHandler

/-- Unfolding handleEvent one step: it is handleEventCore applied to the
named sub-dispatch at the same depth budget. -/
theorem handleEvent_eq (fuel : Nat) (st : EH) (event : EventType) (value : Int)
    (repeated : Bool) :
    handleEvent fuel st event value repeated =
      handleEventCore (handleEventSub fuel) st event value repeated := by
  cases fuel <;> rfl

/-- At a positive budget the sub-dispatch is handleEvent one level down. -/
theorem handleEventSub_succ (f : Nat) (s : EH) (e : EventType) (v : Int) (r : Bool) :
    handleEventSub (f + 1) s e v r = handleEvent f s e v r := rfl

/-- The combo arm of handleEventCore: for a combo event, the fold of the
sub-dispatch over the 8 entries of its table row, skipping NoType. -/
theorem handleEventCore_combo_eq (sub : EH → EventType → Int → Bool → Option EH)
    (st : EH) (v : Int) (r : Bool) (ev : EventType) (hev : isComboEvent ev = true) :
    handleEventCore sub st ev v r =
      (comboRow st (comboIndexOf ev)).foldl
        (fun acc e => acc.bind fun s =>
          if e != EventType.NoType then sub s e (if (v != 0) then 1 else 0) r
          else some s) (some st) := by
  cases ev with
  | other n => exact Bool.noConfusion hev
  | named e => cases e <;> first | rfl | exact Bool.noConfusion hev

/-- The ExitMode arm of handleEventCore, spelled out per application
state. -/
theorem handleEventCore_exitMode_eq (sub : EH → EventType → Int → Bool → Option EH)
    (st : EH) (v : Int) (r : Bool) :
    handleEventCore sub st .ExitMode v r =
      (match st.myState with
      | State.PAUSE =>
          some (if (v != 0) && !r then (changeStateByEvent st .TogglePauseMode).1 else st)
      | State.CMDMENU =>
          some (if (v != 0) && !r then (changeStateByEvent st .CmdMenuMode).1 else st)
      | State.TIMEMACHINE =>
          some (if (v != 0) && !r then (changeStateByEvent st .TimeMachineMode).1 else st)
      | State.EMULATION =>
          if (v != 0) && !r then
            if (exitEmulation st).exitLauncher || (exitEmulation st).launcherUsed then
              some (exitEmulation st)
            else some (quitCase (exitEmulation st) 1 false)
          else some st
      | _ => some st) := rfl

/-- Every non-combo arm of handleEventCore produces a value, whatever
sub-dispatch it is given: only combo expansion can recurse. -/
theorem handleEventCore_nonCombo_isSome (sub : EH → EventType → Int → Bool → Option EH)
    (st : EH) (ev : EventType) (hev : isComboEvent ev = false) (v : Int) (r : Bool) :
    (handleEventCore sub st ev v r).isSome = true := by
  cases ev with
  | other n => rfl
  | named e =>
      cases e
      all_goals try rfl
      all_goals try exact Bool.noConfusion hev
      all_goals rw [handleEventCore_exitMode_eq]
      all_goals cases st.myState <;> simp [apply_ite Option.isSome]

/-- Dispatch of a non-combo event always produces a value, at any depth
budget. -/
theorem handleEvent_nonCombo_isSome (fuel : Nat) (st : EH) (ev : EventType)
    (hev : isComboEvent ev = false) (v : Int) (r : Bool) :
    (handleEvent fuel st ev v r).isSome = true := by
  rw [handleEvent_eq]
  exact handleEventCore_nonCombo_isSome _ st ev hev v r

/-- The combo-row fold produces a value whenever every row entry is a
non-combo event. -/
theorem dispatch_row_isSome (fuel : Nat) (st : EH) (row : List EventType)
    (hrow : ∀ e ∈ row, isComboEvent e = false) (pv : Int) (r : Bool) :
    (row.foldl (fun acc e => acc.bind fun s =>
        if e != EventType.NoType then handleEvent fuel s e pv r else some s)
      (some st)).isSome = true := by
  induction row generalizing st with
  | nil => rfl
  | cons e rest ih =>
      simp only [List.foldl_cons, Option.some_bind]
      by_cases he : e = EventType.NoType
      · simp only [he, bne_self_eq_false, if_false]
        exact ih st (fun x hx => hrow x (List.mem_cons_of_mem _ hx))
      · have hne : (e != EventType.NoType) = true := by simpa using he
        simp only [hne, if_true]
        have := handleEvent_nonCombo_isSome fuel st e
          (hrow e (List.mem_cons_self _ _)) pv r
        cases hcall : handleEvent fuel st e pv r with
        | none => rw [hcall] at this; simp at this
        | some s1 => exact ih s1 (fun x hx => hrow x (List.mem_cons_of_mem _ hx))

end EventHandler

namespace EventHandler

/-- C5: loading the persisted combo string with a version tag different
from Event::VERSION, or with a leading slot-count token that does not
parse to COMBO_SIZE (16), resets every one of the 16 x 8 combo entries to
NoType, whatever the table held before. -/
theorem C5_combo_reset (list : String) (version : Int)
    (old : Fin 16 → Fin 8 → EventType)
    (h : version ≠ Event.VERSION
      ∨ atoi ((streamTokens (replaceChar list ':' ' ')).headD "") ≠ COMBO_SIZE) :
    ∀ i j, setComboMap list version old i j = EventType.NoType := by
  intro i j
  unfold setComboMap
  by_cases hv : version ≠ Event.VERSION
  · simp [hv]
  · rw [if_neg hv]
    rcases h with h | h
    · exact absurd h (by simpa using hv)
    · cases htok : streamTokens (replaceChar list ':' ' ') with
      | nil => rfl
      | cons key rest =>
          rw [htok] at h
          simp only [List.headD_cons] at h
          simp [h]

/-- C5 witness: with version 0 (differing from Event.VERSION) and an empty
persisted string, a previously full combo table comes back entirely
NoType, shown at the first and last entries. -/
theorem C5_witness :
    setComboMap "" 0 (fun _ _ => EventType.Combo1) 0 0 = EventType.NoType
    ∧ setComboMap "" 0 (fun _ _ => EventType.Combo1) 15 7 = EventType.NoType :=
  ⟨C5_combo_reset "" 0 (fun _ _ => EventType.Combo1) (Or.inl (by decide)) 0 0,
   C5_combo_reset "" 0 (fun _ _ => EventType.Combo1) (Or.inl (by decide)) 15 7⟩

/-- C6: when combo slot 1 (row 0 of the table) holds
[A, NoType, B, NoType, NoType, NoType, NoType, NoType] with A and B not
NoType, dispatching Combo1 is exactly the dispatch of A followed, on its
result, by the dispatch of B: nothing is dispatched for the NoType
entries, the order is A then B, and each sub-dispatch receives the
pressed flag (value 1, since the call was pressed) and the same repeated
flag. -/
theorem C6_combo_expansion (st : EH) (A B : EventType) (v : Int) (r : Bool)
    (fuel : Nat)
    (h0 : st.myComboTable 0 0 = A)
    (h1 : st.myComboTable 0 1 = EventType.NoType)
    (h2 : st.myComboTable 0 2 = B)
    (h3 : st.myComboTable 0 3 = EventType.NoType)
    (h4 : st.myComboTable 0 4 = EventType.NoType)
    (h5 : st.myComboTable 0 5 = EventType.NoType)
    (h6 : st.myComboTable 0 6 = EventType.NoType)
    (h7 : st.myComboTable 0 7 = EventType.NoType)
    (hA : A ≠ EventType.NoType) (hB : B ≠ EventType.NoType) (hv : v ≠ 0) :
    handleEvent (fuel + 1) st .Combo1 v r
      = (handleEvent fuel st A 1 r).bind (fun s1 => handleEvent fuel s1 B 1 r) := by
  have hvb : (v != 0) = true := by simpa using hv
  have hAb : (A != EventType.NoType) = true := by simpa using hA
  have hBb : (B != EventType.NoType) = true := by simpa using hB
  rw [handleEvent_eq, handleEventCore_combo_eq _ _ _ _ _ (by decide)]
  simp only [comboRow, comboIndexOf, h0, h1, h2, h3, h4, h5, h6, h7]
  simp [hvb, hAb, hBb, hA, hB, option_bind_some_id, handleEventSub_succ]

/-- C6 witness: the concrete scenario with A = ConsoleSelect and
B = ConsoleReset in slot 1 of an otherwise empty table, dispatched
pressed and not repeated. -/
theorem C6_witness :
    handleEvent 2 { baseEH with myComboTable := c6Table } .Combo1 1 false
      = (handleEvent 1 { baseEH with myComboTable := c6Table }
          .ConsoleSelect 1 false).bind
          (fun s1 => handleEvent 1 s1 .ConsoleReset 1 false) :=
  C6_combo_expansion { baseEH with myComboTable := c6Table }
    .ConsoleSelect .ConsoleReset 1 false 1
    (by decide) (by decide) (by decide) (by decide) (by decide) (by decide)
    (by decide) (by decide) (by decide) (by decide) (by decide)

/-- C7: for each of the eight (direction, opposite) pairs of the two
virtual joystick ports, a pressed dispatch of the direction clears the
opposite direction's latched value to 0 in the same dispatch pass when
the allow-all-directions flag is unset, and leaves the opposite
direction's latch unchanged when the flag is set. -/
theorem C7_opposite_suppression (d o : EventType) (hmem : (d, o) ∈ dirPairs)
    (st : EH) (v : Int) (r : Bool) (fuel : Nat) (hv : v ≠ 0) :
    ∃ st1, handleEvent fuel st d v r = some st1
      ∧ (st.myAllowAllDirectionsFlag = false → st1.myEvent o = 0)
      ∧ (st.myAllowAllDirectionsFlag = true → st1.myEvent o = st.myEvent o) := by
  have hvb : (v != 0) = true := by simpa using hv
  simp only [handleEvent_eq]
  fin_cases hmem <;>
    refine ⟨_, rfl, fun hall => ?_, fun hall => ?_⟩ <;>
      cases r <;>
        simp [passToCore, eventSet, hall, hvb, Function.update_apply]

/-- C7 witness: pressing JoystickZeroUp while JoystickZeroDown is latched
at 1 clears Down in the same pass when the flag is unset. -/
theorem C7_witness :
    ∃ st1, handleEvent 1
        { baseEH with myEvent := Function.update baseEH.myEvent .JoystickZeroDown 1 }
        .JoystickZeroUp 1 false = some st1
      ∧ (false = false → st1.myEvent .JoystickZeroDown = 0)
      ∧ (false = true → st1.myEvent .JoystickZeroDown
          = Function.update baseEH.myEvent .JoystickZeroDown 1 .JoystickZeroDown) :=
  C7_opposite_suppression .JoystickZeroUp .JoystickZeroDown (by decide)
    { baseEH with myEvent := Function.update baseEH.myEvent .JoystickZeroDown 1 }
    1 false 1 (by decide)

end EventHandler

namespace EventHandler

/-- C8 counterexample: setComboListForEvent called for Combo1 with the
action-list index 141 (the index of the Combo 1 action in
ourEmulActionList) stores the combo event Combo1 itself in combo slot 1,
so the population paths do not keep combo events out of the combo table:
dispatching Combo1 then recurses on Combo1 without bound. -/
theorem C8_counterexample :
    (setComboListForEvent .Combo1 (List.replicate 8 "141")
        (fun _ _ => EventType.NoType)) 0 0 = EventType.Combo1
    ∧ isComboEvent ((setComboListForEvent .Combo1 (List.replicate 8 "141")
        (fun _ _ => EventType.NoType)) 0 0) = true := by
  constructor <;> decide

/-- C8 amended: for a combo table none of whose entries is a combo event,
dispatching any combo event terminates within recursion depth 2 (the
combo call plus one sub-dispatch per entry, fan-out 8): a depth budget of
2 is never exhausted.  The population paths do not guarantee that
precondition: setComboMap stores unvalidated integers and
setComboListForEvent can store a combo event (C8_counterexample). -/
theorem C8_bounded_expansion (st : EH)
    (hT : ∀ k j, isComboEvent (st.myComboTable k j) = false)
    (ev : EventType) (hev : isComboEvent ev = true) (v : Int) (r : Bool) :
    (handleEvent 2 st ev v r).isSome = true := by
  rw [handleEvent_eq, handleEventCore_combo_eq _ _ _ _ _ hev]
  have hsub : ∀ s e v2 r2, handleEventSub 2 s e v2 r2 = handleEvent 1 s e v2 r2 :=
    fun _ _ _ _ => rfl
  simp only [hsub]
  refine dispatch_row_isSome 1 st _ ?_ _ r
  intro e he
  simp only [comboRow, List.mem_cons, List.not_mem_nil, or_false] at he
  rcases he with rfl | rfl | rfl | rfl | rfl | rfl | rfl | rfl <;> exact hT _ _

/-- C8 witness: on the empty combo table, dispatching Combo1 pressed
terminates within depth budget 2. -/
theorem C8_witness :
    (handleEvent 2 baseEH .Combo1 1 false).isSome = true :=
  C8_bounded_expansion baseEH (by decide) .Combo1 (by decide) 1 false

/-- C9: for every event the dispatcher does not intercept (no case of the
handleEvent switch returns for it), a call with the repeated flag set
leaves that event's entry of the input-event table unchanged, and a call
with the repeated flag clear writes the call's value into that entry. -/
theorem C9_repeated_flag (ev : EventType) (hin : intercepted ev = false)
    (st : EH) (v : Int) (fuel : Nat) :
    (∃ st1, handleEvent fuel st ev v true = some st1
      ∧ st1.myEvent ev = st.myEvent ev)
    ∧ (∃ st2, handleEvent fuel st ev v false = some st2
      ∧ st2.myEvent ev = v) := by
  simp only [handleEvent_eq]
  cases ev with
  | other n =>
      exact ⟨⟨_, rfl, rfl⟩, ⟨_, rfl, by simp [passToCore, eventSet]⟩⟩
  | named e =>
      cases e
      all_goals try exact absurd hin (by decide)
      all_goals try exact ⟨⟨_, rfl, rfl⟩, ⟨_, rfl, by simp [passToCore, eventSet]⟩⟩
      all_goals refine ⟨⟨_, rfl, ?_⟩, ⟨_, rfl, by simp [passToCore, eventSet]⟩⟩
      all_goals simp only [passToCore, Bool.not_true, Bool.false_eq_true, if_false]
      all_goals split
      all_goals rfl

/-- C9 witness: ConsoleSelect is not intercepted; dispatching it repeated
leaves its entry alone, and dispatching it not-repeated writes value 5. -/
theorem C9_witness :
    intercepted .ConsoleSelect = false
    ∧ ((∃ st1, handleEvent 1 baseEH .ConsoleSelect 5 true = some st1
        ∧ st1.myEvent .ConsoleSelect = baseEH.myEvent .ConsoleSelect)
      ∧ (∃ st2, handleEvent 1 baseEH .ConsoleSelect 5 false = some st2
        ∧ st2.myEvent .ConsoleSelect = 5)) :=
  ⟨by decide, C9_repeated_flag .ConsoleSelect (by decide) baseEH 5 1⟩

end EventHandler
